import Mathlib

/-!
Shallow embedding of `bulk_data_extraction/unbounce_connection.py`
(class `UnbounceConnection`), together with theorems checking the
natural-language specification against it.

Modelling conventions
---------------------
* A page record is the dictionary returned by the "pages" endpoint,
  restricted to the fields the program reads: `id`, `createdAt`,
  `domain`, `state`.  A lead record likewise keeps `id`, `created_at`,
  `page_id`, `variant_id`.  Field values (ids, ISO timestamps, domains)
  are opaque to the extraction loop, so the records are parametrised by
  a type `τ` with decidable equality; the validation layer
  (`process_date_range`, `process_bulk_pages`), which really inspects
  strings, is modelled at `τ = String`.
* `pandas` DataFrames of records are modelled as Lean lists in row
  order.  `DataFrame.append` is list append,
  `duplicated(subset=key, keep='first')` is `dupsBy key`,
  `drop_duplicates(subset=key, keep='first')` is `dedupBy key`, and
  `new_df.equals(dropped_df)` is list equality (the dropped rows form a
  subsequence of the appended rows, so pandas' index/shape comparison
  coincides with list equality here).  Selecting a column of a
  DataFrame that was built from the empty list raises `KeyError`
  (`pd.DataFrame([])` has no columns); `.empty` on a plain Python list
  raises `AttributeError`.
* The single-page API calls `client.pages.get_pages(_from, to, ...)`
  and `client.pages.get_page_leads(page_id, _from, to, ...)` are
  external collaborators, passed in as functions `pageFn`/`leadFn` of
  the date bounds (and parent page id).
* Wall-clock time is passed in as a function `clock : Nat → Nat` giving
  the elapsed whole seconds since the method's `START_TIME` at the k-th
  call boundary (k = number of requests already made).  The Python
  expression `(datetime.now() - START_TIME).seconds` is the seconds
  component of the timedelta, i.e. elapsed seconds modulo 86400 —
  see `deadlineCheck`.
* The while-loops run on explicit fuel; `none` means the fuel ran out
  (the Python loop would still be running), `some (Except.error e)`
  models an uncaught Python exception, `some (Except.ok s)` a normal
  return with final loop state `s`.
* The loop states carry, besides the program's real variables
  (`df`, `dateStart`, `cont`, `itr`), observer fields: `calls` counts
  the requests issued, `sleeps` counts executed `time.sleep(60)`
  cooldowns, `raw` accumulates every raw record fetched and `counted`
  counts the requests that reached the `itr += 1` line.
-/

/-- A Python exception, as far as this module distinguishes them. -/
inductive PyErr : Type where
  | recursionError
  | attributeError
  | keyError
  | valueError
  | typeError
deriving DecidableEq, Repr

/-- A raw page record as returned by the pages endpoint (the fields the
program reads). -/
structure PageRec (τ : Type) where
  id : τ
  createdAt : τ
  domain : τ
  state : τ
deriving DecidableEq, Repr

/-- A page record after `rename(columns={'id': 'page_id'})`. -/
structure PageOut (τ : Type) where
  page_id : τ
  createdAt : τ
  domain : τ
  state : τ
deriving DecidableEq, Repr

/-- A raw lead record as returned by the leads endpoint (the fields the
program reads). -/
structure LeadRec (τ : Type) where
  id : τ
  created_at : τ
  page_id : τ
  variant_id : τ
deriving DecidableEq, Repr

/-- A lead record after `rename(columns={'id': 'lead_id'})`. -/
structure LeadOut (τ : Type) where
  lead_id : τ
  created_at : τ
  page_id : τ
  variant_id : τ
deriving DecidableEq, Repr

/-- `rename(columns={'id': 'page_id'})` applied to one record: the `id`
field is renamed, every other field is unchanged. -/
def renamePage {τ : Type} (r : PageRec τ) : PageOut τ :=
  { page_id := r.id, createdAt := r.createdAt, domain := r.domain, state := r.state }

/-- `rename(columns={'id': 'lead_id'})` applied to one record. -/
def renameLead {τ : Type} (r : LeadRec τ) : LeadOut τ :=
  { lead_id := r.id, created_at := r.created_at, page_id := r.page_id, variant_id := r.variant_id }

/-- `df.drop_duplicates(subset=key, keep='first')`, with `seen` the keys
already considered: keep an element iff its key has not occurred
before. -/
def dedupByAux {α κ : Type} [DecidableEq κ] (key : α → κ) : List κ → List α → List α
  | _, [] => []
  | seen, r :: rs =>
    if key r ∈ seen then dedupByAux key seen rs
    else r :: dedupByAux key (key r :: seen) rs

/-- `df[df.duplicated(subset=key, keep='first')]`: the elements whose key
occurred earlier (the rows `drop_duplicates` discards), in row order. -/
def dupsByAux {α κ : Type} [DecidableEq κ] (key : α → κ) : List κ → List α → List α
  | _, [] => []
  | seen, r :: rs =>
    if key r ∈ seen then r :: dupsByAux key seen rs
    else dupsByAux key (key r :: seen) rs

/-- The `seen` key set after scanning `l` (companion to the two functions
above). -/
def seenAfter {α κ : Type} [DecidableEq κ] (key : α → κ) : List κ → List α → List κ
  | seen, [] => seen
  | seen, r :: rs =>
    if key r ∈ seen then seenAfter key seen rs
    else seenAfter key (key r :: seen) rs

/-- `df.drop_duplicates(subset=key, keep='first')`. -/
def dedupBy {α κ : Type} [DecidableEq κ] (key : α → κ) (l : List α) : List α :=
  dedupByAux key [] l

/-- `df[df.duplicated(subset=key, keep='first')]`. -/
def dupsBy {α κ : Type} [DecidableEq κ] (key : α → κ) (l : List α) : List α :=
  dupsByAux key [] l

/-- Python truthiness of an optional list argument (`if page_id_list:`):
true iff present and non-empty. -/
def truthyL {τ : Type} : Option (List τ) → Bool
  | none => false
  | some l => !l.isEmpty

/-- The guard `(datetime.now() - START_TIME).seconds > extract_timeout_time`.
`timedelta.seconds` is the seconds component after whole days are split
off, i.e. the elapsed whole seconds modulo 86400 — not the total
elapsed time. -/
def deadlineCheck (elapsed timeout : Nat) : Bool :=
  decide (elapsed % 86400 > timeout)

/-- Lines 208-211 / 387-390: `itr += 1; if itr == 495: time.sleep(60); itr = 0`.
Input and output are the pair (itr, number of sleeps so far). -/
def govStep (itr sleeps : Nat) : Nat × Nat :=
  if itr + 1 = 495 then (0, sleeps + 1) else (itr + 1, sleeps)

/-- Outcome of one iteration of a request while-loop. -/
inductive LoopStep (σ : Type) : Type where
  | err (e : PyErr)
  | stop (s : σ)
  | next (s : σ)
deriving Repr

/-- State of the `bulk_get_pages` while-loop (lines 129-211).  `df`,
`dateStart`, `cont`, `itr` are the Python variables `pages_df`,
`date_start`, `cont`, `itr`; `calls`, `sleeps`, `raw`, `counted` are
observer fields (see module docstring). -/
structure PagesState (τ : Type) where
  df : List (PageRec τ)
  dateStart : Option τ
  cont : Bool
  itr : Nat
  calls : Nat
  sleeps : Nat
  raw : List (PageRec τ)
  counted : Nat
deriving DecidableEq, Repr

/-- State of the `bulk_get_leads` request loops (lines 308-390); the
state is shared across the per-page-id for-loop. -/
structure LeadsState (τ : Type) where
  df : List (LeadRec τ)
  dateStart : Option τ
  cont : Bool
  itr : Nat
  calls : Nat
  sleeps : Nat
  raw : List (LeadRec τ)
  counted : Nat
deriving DecidableEq, Repr

/-- The composite unique key for lead records
(`subset=['created_at', 'id', 'page_id', 'variant_id']`). -/
def leadKey {τ : Type} (l : LeadRec τ) : τ × τ × τ × τ :=
  (l.created_at, l.id, l.page_id, l.variant_id)

/-- One iteration of the `bulk_get_pages` while-loop body
(lines 155-211), entered with `cont = true`: deadline guard, one
`get_pages` request, break on an empty page, append + deduplicate,
advance the cursor to the last raw record's `createdAt`, decide
`cont` by `new_pages_df.equals(pages_dropped)`, and run the rate
governor. -/
def pagesBody {τ : Type} [DecidableEq τ] (pageFn : Option τ → Option τ → List (PageRec τ))
    (de : Option τ) (timeout : Nat) (clock : Nat → Nat) (s : PagesState τ) :
    LoopStep (PagesState τ) :=
  if deadlineCheck (clock s.calls) timeout then LoopStep.err PyErr.recursionError
  else
    match pageFn s.dateStart de with
    | [] => LoopStep.stop { s with calls := s.calls + 1 }
    | r :: rs =>
      let combined := s.df ++ (r :: rs)
      let dropped := dupsBy (fun p => p.id) combined
      let gs := govStep s.itr s.sleeps
      LoopStep.next
        { df := dedupBy (fun p => p.id) combined
          dateStart := some ((r :: rs).getLast (List.cons_ne_nil r rs)).createdAt
          cont := if (r :: rs) = dropped then false else true
          itr := gs.1
          calls := s.calls + 1
          sleeps := gs.2
          raw := s.raw ++ (r :: rs)
          counted := s.counted + 1 }

/-- The `while cont:` loop of `bulk_get_pages`, on fuel. -/
def pagesLoop {τ : Type} [DecidableEq τ] (pageFn : Option τ → Option τ → List (PageRec τ))
    (de : Option τ) (timeout : Nat) (clock : Nat → Nat) :
    Nat → PagesState τ → Option (Except PyErr (PagesState τ))
  | 0, _ => none
  | fuel + 1, s =>
    if s.cont then
      match pagesBody pageFn de timeout clock s with
      | LoopStep.err e => some (Except.error e)
      | LoopStep.stop s1 => some (Except.ok s1)
      | LoopStep.next s1 => pagesLoop pageFn de timeout clock fuel s1
    else some (Except.ok s)

/-- The loop state at the top of `bulk_get_pages`
(lines 138-147: empty DataFrame, `cont = True`, `itr = 0`). -/
def initPagesState {τ : Type} (ds : Option τ) : PagesState τ :=
  { df := [], dateStart := ds, cont := true, itr := 0, calls := 0, sleeps := 0,
    raw := [], counted := 0 }

/-- `bulk_get_pages` (lines 129-239): run the request loop, rename
`id` → `page_id`, then slice by the domain / page-id / state filters.
Selecting a column of the never-appended empty DataFrame raises
`KeyError`, which happens exactly when the loop fetched nothing and
some filter is truthy.  Returns the final record list together with
the final loop state. -/
def bulk_get_pages {τ : Type} [DecidableEq τ]
    (pageFn : Option τ → Option τ → List (PageRec τ)) (timeout : Nat) (clock : Nat → Nat)
    (fuel : Nat) (ds de : Option τ) (domainList pageIdList : Option (List τ))
    (stateF : Option τ) : Option (Except PyErr (List (PageOut τ) × PagesState τ)) :=
  match pagesLoop pageFn de timeout clock fuel (initPagesState ds) with
  | none => none
  | some (Except.error e) => some (Except.error e)
  | some (Except.ok s) =>
    let renamed := s.df.map renamePage
    if (truthyL domainList || truthyL pageIdList || stateF.isSome) && renamed.isEmpty then
      some (Except.error PyErr.keyError)
    else
      let d1 := if truthyL domainList then
          renamed.filter (fun r => decide (r.domain ∈ domainList.getD [])) else renamed
      let d2 := if truthyL pageIdList then
          d1.filter (fun r => decide (r.page_id ∈ pageIdList.getD [])) else d1
      let d3 := match stateF with
        | some st => d2.filter (fun r => decide (r.state = st))
        | none => d2
      some (Except.ok (d3, s))

/-- One iteration of the inner `bulk_get_leads` while-loop body
(lines 336-390), for parent `pageId`. -/
def leadsBody {τ : Type} [DecidableEq τ]
    (leadFn : τ → Option τ → Option τ → List (LeadRec τ)) (pageId : τ)
    (de : Option τ) (timeout : Nat) (clock : Nat → Nat) (s : LeadsState τ) :
    LoopStep (LeadsState τ) :=
  if deadlineCheck (clock s.calls) timeout then LoopStep.err PyErr.recursionError
  else
    match leadFn pageId s.dateStart de with
    | [] => LoopStep.stop { s with calls := s.calls + 1 }
    | r :: rs =>
      let combined := s.df ++ (r :: rs)
      let dropped := dupsBy leadKey combined
      let gs := govStep s.itr s.sleeps
      LoopStep.next
        { df := dedupBy leadKey combined
          dateStart := some ((r :: rs).getLast (List.cons_ne_nil r rs)).created_at
          cont := if (r :: rs) = dropped then false else true
          itr := gs.1
          calls := s.calls + 1
          sleeps := gs.2
          raw := s.raw ++ (r :: rs)
          counted := s.counted + 1 }

/-- The inner `while cont:` loop of `bulk_get_leads`, on fuel. -/
def leadsLoop {τ : Type} [DecidableEq τ]
    (leadFn : τ → Option τ → Option τ → List (LeadRec τ)) (pageId : τ)
    (de : Option τ) (timeout : Nat) (clock : Nat → Nat) :
    Nat → LeadsState τ → Option (Except PyErr (LeadsState τ))
  | 0, _ => none
  | fuel + 1, s =>
    if s.cont then
      match leadsBody leadFn pageId de timeout clock s with
      | LoopStep.err e => some (Except.error e)
      | LoopStep.stop s1 => some (Except.ok s1)
      | LoopStep.next s1 => leadsLoop leadFn pageId de timeout clock fuel s1
    else some (Except.ok s)

/-- The `for page_id in page_ids_all:` loop (lines 314-390): for each
parent id reset `cont = True` and `date_start = OG_DATE_START`, then run
the inner while-loop; `leads_df` and `itr` persist across parents. -/
def leadsOuter {τ : Type} [DecidableEq τ]
    (leadFn : τ → Option τ → Option τ → List (LeadRec τ)) (ogDs de : Option τ)
    (timeout : Nat) (clock : Nat → Nat) (fuel : Nat) :
    List τ → LeadsState τ → Option (Except PyErr (LeadsState τ))
  | [], s => some (Except.ok s)
  | p :: ps, s =>
    match leadsLoop leadFn p de timeout clock fuel { s with cont := true, dateStart := ogDs } with
    | none => none
    | some (Except.error e) => some (Except.error e)
    | some (Except.ok s1) => leadsOuter leadFn ogDs de timeout clock fuel ps s1

/-- Initial shared state of the lead request loops (lines 287, 308). -/
def initLeadsState {τ : Type} (ds : Option τ) : LeadsState τ :=
  { df := [], dateStart := ds, cont := true, itr := 0, calls := 0, sleeps := 0,
    raw := [], counted := 0 }

/-- `bulk_get_leads` (lines 275-412).  With a truthy `page_id_list`,
`page_ids_all` is a plain Python list, and the subsequent
`page_ids_all.empty` attribute access raises `AttributeError`
(line 302).  Otherwise the parent ids come from
`pd.DataFrame(self.bulk_get_pages(date_end=date_end))['page_id']`,
which raises `KeyError` when `bulk_get_pages` returned `[]` (the empty
DataFrame has no columns), so the `return []` on line 303 is never
reached.  Afterwards the per-parent lead loops run with shared state,
`id` is renamed to `lead_id`, and the lead-id filter is applied (again
`KeyError` on a truthy filter over a column-less empty DataFrame).
Returns the final record list with the final states of the nested
pages lookup and of the lead loops. -/
def bulk_get_leads {τ : Type} [DecidableEq τ]
    (pageFn : Option τ → Option τ → List (PageRec τ))
    (leadFn : τ → Option τ → Option τ → List (LeadRec τ))
    (timeout : Nat) (clockP clockL : Nat → Nat) (fuel : Nat) (ds de : Option τ)
    (leadIdList pageIdList : Option (List τ)) :
    Option (Except PyErr (List (LeadOut τ) × PagesState τ × LeadsState τ)) :=
  if truthyL pageIdList then some (Except.error PyErr.attributeError)
  else
    match bulk_get_pages pageFn timeout clockP fuel none de none none none with
    | none => none
    | some (Except.error e) => some (Except.error e)
    | some (Except.ok (pages, ps)) =>
      if pages.isEmpty then some (Except.error PyErr.keyError)
      else
        let pageIdsAll := pages.map (fun p => p.page_id)
        match leadsOuter leadFn ds de timeout clockL fuel pageIdsAll (initLeadsState ds) with
        | none => none
        | some (Except.error e) => some (Except.error e)
        | some (Except.ok ls) =>
          let renamed := ls.df.map renameLead
          if truthyL leadIdList && renamed.isEmpty then some (Except.error PyErr.keyError)
          else
            let final := if truthyL leadIdList then
                renamed.filter (fun r => decide (r.lead_id ∈ leadIdList.getD [])) else renamed
            some (Except.ok (final, ps, ls))

/-- A Python value appearing in the `filters` dictionary: a string, a
list of strings, a nested dictionary (the `created_at` date range, with
string values), or some other object of the wrong type (represented by
an integer). -/
inductive PyVal : Type where
  | str (s : String)
  | list (l : List String)
  | dict (d : List (String × String))
  | int (n : Int)
deriving DecidableEq, Repr

/-- Gregorian leap year, as used by `datetime`. -/
def isLeap (y : Nat) : Bool :=
  (y % 4 == 0 && y % 100 != 0) || y % 400 == 0

/-- Number of days in month `m` of year `y`. -/
def daysInMonth (y m : Nat) : Nat :=
  if m = 2 then (if isLeap y then 29 else 28)
  else if m = 4 ∨ m = 6 ∨ m = 9 ∨ m = 11 then 30 else 31

/-- Days in year `y` before the first day of month `m`. -/
def daysBeforeMonth (y m : Nat) : Nat :=
  (List.range (m - 1)).foldl (fun acc i => acc + daysInMonth y (i + 1)) 0

/-- The proleptic Gregorian ordinal of a date, as in
`datetime.toordinal()`: day 1 is January 1 of year 1.  A timedelta
between two dates at midnight has `.days` equal to the difference of
their ordinals. -/
def toOrdinal (y m d : Nat) : Nat :=
  365 * (y - 1) + (y - 1) / 4 - (y - 1) / 100 + (y - 1) / 400 + daysBeforeMonth y m + d

/-- Split a character list on `-` (the analogue of `s.split('-')`):
adjacent or leading/trailing dashes yield empty parts. -/
def splitDash : List Char → List (List Char)
  | [] => [[]]
  | c :: cs =>
    if c = '-' then [] :: splitDash cs
    else
      match splitDash cs with
      | [] => [[c]]
      | p :: ps => (c :: p) :: ps

/-- Parse a non-empty all-digit character list as a decimal number. -/
def digitsToNatAux : Nat → List Char → Option Nat
  | acc, [] => some acc
  | acc, c :: cs =>
    if c.isDigit then digitsToNatAux (acc * 10 + (c.toNat - 48)) cs else none

/-- Parse a non-empty all-digit character list as a decimal number
(`none` on an empty list or a non-digit). -/
def digitsToNat : List Char → Option Nat
  | [] => none
  | c :: cs => digitsToNatAux 0 (c :: cs)

/-- The `%Y` directive of CPython's `_strptime`: its regex is exactly
four digits, so the year part must be exactly four digit characters
(its value anywhere in 0-9999; year 0 is rejected later by the
`datetime` constructor, whose minimum year is 1). -/
def parseY (l : List Char) : Option Nat :=
  if l.length = 4 ∧ l.all Char.isDigit then digitsToNat l else none

/-- The `%m` directive of CPython's `_strptime`: its regex is
`1[0-2]|0[1-9]|[1-9]`, i.e. one or two digit characters whose value is
between 1 and 12 (no space padding is accepted for the month). -/
def parseMonth (l : List Char) : Option Nat :=
  if (l.length = 1 ∨ l.length = 2) ∧ l.all Char.isDigit then
    match digitsToNat l with
    | some m => if 1 ≤ m ∧ m ≤ 12 then some m else none
    | none => none
  else none

/-- The `%d` directive of CPython's `_strptime`: its regex is
`3[01]|[12][0-9]|0[1-9]|[1-9]| [1-9]`, i.e. a single digit 1-9, a
space followed by a digit 1-9 (space-padded day), or two digit
characters whose value is between 1 and 31. -/
def parseDay : List Char → Option Nat
  | [c] => if c.isDigit ∧ c ≠ '0' then some (c.toNat - 48) else none
  | [' ', c] => if c.isDigit ∧ c ≠ '0' then some (c.toNat - 48) else none
  | [c1, c2] =>
    if c1.isDigit ∧ c2.isDigit then
      match digitsToNat [c1, c2] with
      | some d => if 1 ≤ d ∧ d ≤ 31 then some d else none
      | none => none
    else none
  | _ => none

/-- `datetime.strptime(s, '%Y-%m-%d')`, following CPython's `_strptime`
regex for this format and the `datetime` constructor that consumes the
parsed fields: the string must be exactly a `%Y` year part, a literal
`-`, a `%m` month part, a literal `-` and a `%d` day part (nothing may
remain unconverted, and none of the three parts can span a dash), and
`datetime(y, m, d)` additionally requires a year of at least 1 and a
day that exists in the given month of the given year.  Returns the
parsed (year, month, day) or `none` for a `ValueError`. -/
def parseYMD (s : String) : Option (Nat × Nat × Nat) :=
  match splitDash s.data with
  | [ys, ms, ds] =>
    match parseY ys, parseMonth ms, parseDay ds with
    | some y, some m, some d =>
      if 1 ≤ y ∧ d ≤ daysInMonth y m then some (y, m, d)
      else none
    | _, _, _ => none
  | _ => none

/-- The ordinal of a parsed date triple. -/
def ordOf (t : Nat × Nat × Nat) : Nat :=
  toOrdinal t.1 t.2.1 t.2.2

/-- `process_date_range` (lines 440-506): the `created_at` filter value
must be a dictionary (`TypeError` otherwise) with keys among
`date_start`/`date_end` (`ValueError` otherwise); each present date is
parsed with `strptime('%Y-%m-%d')` (`ValueError` on failure) and
suffixed with `T00:00:00.000Z`; and when both are present, a zero or
negative day difference is a `ValueError`.  Returns the processed
(date_start, date_end). -/
def process_date_range (v : PyVal) : Except PyErr (Option String × Option String) :=
  match v with
  | PyVal.dict d =>
    if d.all (fun kv => decide (kv.1 = "date_start" ∨ kv.1 = "date_end")) then
      match List.lookup "date_start" d with
      | some s =>
        match parseYMD s with
        | none => Except.error PyErr.valueError
        | some ts =>
          match List.lookup "date_end" d with
          | some e =>
            match parseYMD e with
            | none => Except.error PyErr.valueError
            | some te =>
              if (ordOf te : Int) - (ordOf ts : Int) = 0 then Except.error PyErr.valueError
              else if (ordOf te : Int) - (ordOf ts : Int) < 0 then Except.error PyErr.valueError
              else Except.ok (some (s ++ "T00:00:00.000Z"), some (e ++ "T00:00:00.000Z"))
          | none => Except.ok (some (s ++ "T00:00:00.000Z"), none)
      | none =>
        match List.lookup "date_end" d with
        | some e =>
          match parseYMD e with
          | none => Except.error PyErr.valueError
          | some _ => Except.ok (none, some (e ++ "T00:00:00.000Z"))
        | none => Except.ok (none, none)
    else Except.error PyErr.valueError
  | _ => Except.error PyErr.typeError

/-- The string-or-list normalisation applied to the `domain`, `page_id`
and `lead_id` filter values: a string becomes a one-element list, a
list is taken as is, anything else is a `TypeError`. -/
def strOrList : Option PyVal → Except PyErr (Option (List String))
  | none => Except.ok none
  | some (PyVal.str s) => Except.ok (some [s])
  | some (PyVal.list l) => Except.ok (some l)
  | some _ => Except.error PyErr.typeError

/-- The `state` filter check (lines 608-620): the value must be the
string `published` or `unpublished`, else `ValueError`. -/
def stateCheck : Option PyVal → Except PyErr (Option String)
  | none => Except.ok none
  | some (PyVal.str s) =>
    if s = "published" ∨ s = "unpublished" then Except.ok (some s)
    else Except.error PyErr.valueError
  | some _ => Except.error PyErr.valueError

/-- The acceptable page filter keys (line 536). -/
def pageFilterKeys : List String :=
  ["created_at", "domain", "page_id", "state"]

/-- The processed page filter arguments handed to `bulk_get_pages`. -/
structure PageFilterArgs : Type where
  date_start : Option String
  date_end : Option String
  domain_list : Option (List String)
  page_id_list : Option (List String)
  stateF : Option String
deriving DecidableEq, Repr

/-- The `created_at` stage of `process_bulk_pages` (lines 561-563):
absent means no date bounds, present means the value goes through
`process_date_range`. -/
def caStage (filters : List (String × PyVal)) : Except PyErr (Option String × Option String) :=
  match List.lookup "created_at" filters with
  | none => Except.ok (none, none)
  | some v => process_date_range v

/-- `process_bulk_pages` (lines 530-632) up to, but not including, the
final call to `bulk_get_pages`: reject any filter key outside
`pageFilterKeys` (`ValueError`), process `created_at` through
`process_date_range`, normalise `domain` and `page_id` through the
string-or-list check, and validate `state`.  The `filters` argument is
modelled as an association list with the dictionary's keys. -/
def process_bulk_pages (filters : List (String × PyVal)) : Except PyErr PageFilterArgs :=
  if filters.all (fun kv => decide (kv.1 ∈ pageFilterKeys)) then
    match caStage filters with
    | Except.error e => Except.error e
    | Except.ok (ds, de) =>
      match strOrList (List.lookup "domain" filters) with
      | Except.error e => Except.error e
      | Except.ok dl =>
        match strOrList (List.lookup "page_id" filters) with
        | Except.error e => Except.error e
        | Except.ok pil =>
          match stateCheck (List.lookup "state" filters) with
          | Except.error e => Except.error e
          | Except.ok st =>
            Except.ok { date_start := ds, date_end := de, domain_list := dl,
                        page_id_list := pil, stateF := st }
  else Except.error PyErr.valueError

/-- The `bulk_extract('pages', filters)` path (lines 800-824 dispatch to
`process_bulk_pages`, line 631 calls `bulk_get_pages` with the
processed filters).  A validation error is raised before the fetch
function is ever consulted. -/
def bulk_extract_pages (pageFn : Option String → Option String → List (PageRec String))
    (timeout : Nat) (clock : Nat → Nat) (fuel : Nat) (filters : List (String × PyVal)) :
    Option (Except PyErr (List (PageOut String) × PagesState String)) :=
  match process_bulk_pages filters with
  | Except.error e => some (Except.error e)
  | Except.ok a =>
    bulk_get_pages pageFn timeout clock fuel a.date_start a.date_end a.domain_list
      a.page_id_list a.stateF

example : pagesLoop (τ := Nat) (fun _ _ => []) none 3600 (fun _ => 0) 5 (initPagesState none)
    = some (Except.ok { df := [], dateStart := none, cont := true, itr := 0, calls := 1,
                        sleeps := 0, raw := [], counted := 0 }) := rfl

example : bulk_get_pages (τ := Nat) (fun _ _ => [⟨1, 2, 3, 4⟩]) 3600 (fun _ => 0) 5
    none none none none none
    = some (Except.ok ([⟨1, 2, 3, 4⟩],
        { df := [⟨1, 2, 3, 4⟩], dateStart := some 2, cont := false, itr := 2, calls := 2,
          sleeps := 0, raw := [⟨1, 2, 3, 4⟩, ⟨1, 2, 3, 4⟩], counted := 2 })) := rfl

example : parseYMD "2020-01-01" = some (2020, 1, 1) := rfl
example : parseYMD "2020-13-01" = none := rfl
example : parseYMD "2020/01/01" = none := rfl
example : parseYMD "2020-02-29" = some (2020, 2, 29) := rfl
example : parseYMD "2019-02-29" = none := rfl
example : parseYMD "2020-1-1" = some (2020, 1, 1) := rfl
example : parseYMD "2020-01- 1" = some (2020, 1, 1) := rfl
example : parseYMD "2020- 1-01" = none := rfl
example : parseYMD "202-01-01" = none := rfl
example : parseYMD "5-1-1" = none := rfl
example : parseYMD "02020-01-01" = none := rfl
example : parseYMD "0000-01-01" = none := rfl
example : parseYMD "0001-01-01" = some (1, 1, 1) := rfl
example : parseYMD "2020-01-32" = none := rfl
example : parseYMD "2020-01-011" = none := rfl
example : ordOf (2020, 2, 1) - ordOf (2020, 1, 1) = 31 := rfl
example : process_date_range (PyVal.dict [("date_start", "2020-01-01"), ("date_end", "2020-01-01")])
    = Except.error PyErr.valueError := rfl
example : process_date_range (PyVal.dict [("date_start", "2020-01-01"), ("date_end", "2020-01-02")])
    = Except.ok (some "2020-01-01T00:00:00.000Z", some "2020-01-02T00:00:00.000Z") := rfl
example : process_date_range (PyVal.dict [("date_start", "2020-02-01"), ("date_end", "2020-01-01")])
    = Except.error PyErr.valueError := rfl

section DedupLemmas

variable {α κ : Type} [DecidableEq κ] (key : α → κ)

theorem seenAfter_mem (l : List α) : ∀ (seen : List κ) (k : κ),
    k ∈ seenAfter key seen l ↔ k ∈ seen ∨ k ∈ l.map key := by
  induction l with
  | nil => intro seen k; simp [seenAfter]
  | cons r rs ih =>
    intro seen k
    simp only [seenAfter, List.map_cons, List.mem_cons]
    by_cases h : key r ∈ seen
    · rw [if_pos h, ih]
      constructor
      · rintro (h1 | h1)
        · exact Or.inl h1
        · exact Or.inr (Or.inr h1)
      · rintro (h1 | h1 | h1)
        · exact Or.inl h1
        · exact Or.inl (h1 ▸ h)
        · exact Or.inr h1
    · rw [if_neg h, ih]
      simp only [List.mem_cons]
      tauto

theorem dedupByAux_append (a : List α) : ∀ (seen : List κ) (b : List α),
    dedupByAux key seen (a ++ b)
      = dedupByAux key seen a ++ dedupByAux key (seenAfter key seen a) b := by
  induction a with
  | nil => simp [dedupByAux, seenAfter]
  | cons r rs ih =>
    intro seen b
    by_cases h : key r ∈ seen <;> simp [dedupByAux, seenAfter, h, ih]

theorem dupsByAux_append (a : List α) : ∀ (seen : List κ) (b : List α),
    dupsByAux key seen (a ++ b)
      = dupsByAux key seen a ++ dupsByAux key (seenAfter key seen a) b := by
  induction a with
  | nil => simp [dupsByAux, seenAfter]
  | cons r rs ih =>
    intro seen b
    by_cases h : key r ∈ seen <;> simp [dupsByAux, seenAfter, h, ih]

theorem dedupByAux_congr (l : List α) : ∀ (s1 s2 : List κ), (∀ k, k ∈ s1 ↔ k ∈ s2) →
    dedupByAux key s1 l = dedupByAux key s2 l := by
  induction l with
  | nil => intro s1 s2 _; simp [dedupByAux]
  | cons r rs ih =>
    intro s1 s2 hiff
    by_cases h : key r ∈ s1
    · simp only [dedupByAux, if_pos h, if_pos ((hiff _).mp h)]
      exact ih _ _ hiff
    · have h2 : key r ∉ s2 := fun hc => h ((hiff _).mpr hc)
      simp only [dedupByAux, if_neg h, if_neg h2]
      congr 1
      apply ih
      intro k
      simp only [List.mem_cons, hiff k]

theorem dupsByAux_of_seen (l : List α) : ∀ (seen : List κ), (∀ r ∈ l, key r ∈ seen) →
    dupsByAux key seen l = l := by
  induction l with
  | nil => intro seen _; simp [dupsByAux]
  | cons r rs ih =>
    intro seen h
    have h1 : key r ∈ seen := h r (List.mem_cons_self r rs)
    simp only [dupsByAux, if_pos h1]
    rw [ih seen (fun x hx => h x (List.mem_cons_of_mem r hx))]

theorem mem_map_dedupByAux (l : List α) : ∀ (seen : List κ) (k : κ),
    k ∈ (dedupByAux key seen l).map key ↔ k ∉ seen ∧ k ∈ l.map key := by
  induction l with
  | nil => intro seen k; simp [dedupByAux]
  | cons r rs ih =>
    intro seen k
    by_cases h : key r ∈ seen
    · simp only [dedupByAux, if_pos h, ih, List.map_cons, List.mem_cons]
      constructor
      · rintro ⟨hk, hm⟩
        exact ⟨hk, Or.inr hm⟩
      · rintro ⟨hk, hm | hm⟩
        · exact absurd (hm ▸ h) hk
        · exact ⟨hk, hm⟩
    · simp only [dedupByAux, if_neg h, List.map_cons, List.mem_cons, ih]
      constructor
      · rintro (rfl | ⟨hk, hm⟩)
        · exact ⟨h, Or.inl rfl⟩
        · exact ⟨fun hc => hk (Or.inr hc), Or.inr hm⟩
      · rintro ⟨hk, rfl | hm⟩
        · exact Or.inl rfl
        · by_cases hkr : k = key r
          · exact Or.inl hkr
          · exact Or.inr ⟨fun hc => hc.elim hkr hk, hm⟩

theorem nodup_map_dedupByAux (l : List α) : ∀ (seen : List κ),
    ((dedupByAux key seen l).map key).Nodup := by
  induction l with
  | nil => intro seen; simp [dedupByAux]
  | cons r rs ih =>
    intro seen
    by_cases h : key r ∈ seen
    · simp only [dedupByAux, if_pos h]
      exact ih seen
    · simp only [dedupByAux, if_neg h, List.map_cons, List.nodup_cons]
      refine ⟨fun hc => ?_, ih _⟩
      rw [mem_map_dedupByAux] at hc
      exact hc.1 (List.mem_cons_self _ _)

theorem dedupByAux_sublist (l : List α) : ∀ (seen : List κ),
    List.Sublist (dedupByAux key seen l) l := by
  induction l with
  | nil => intro seen; simp [dedupByAux]
  | cons r rs ih =>
    intro seen
    by_cases h : key r ∈ seen
    · simp only [dedupByAux, if_pos h]
      exact (ih seen).cons r
    · simp only [dedupByAux, if_neg h]
      exact (ih _).cons₂ r

theorem dupsByAux_sublist (l : List α) : ∀ (seen : List κ),
    List.Sublist (dupsByAux key seen l) l := by
  induction l with
  | nil => intro seen; simp [dupsByAux]
  | cons r rs ih =>
    intro seen
    by_cases h : key r ∈ seen
    · simp only [dupsByAux, if_pos h]
      exact (ih seen).cons₂ r
    · simp only [dupsByAux, if_neg h]
      exact (ih _).cons r

theorem dedupByAux_self_of (l : List α) : ∀ (seen : List κ),
    (∀ r ∈ l, key r ∉ seen) → (l.map key).Nodup → dedupByAux key seen l = l := by
  induction l with
  | nil => intro seen _ _; simp [dedupByAux]
  | cons r rs ih =>
    intro seen h hnd
    have h1 : key r ∉ seen := h r (List.mem_cons_self r rs)
    rw [List.map_cons, List.nodup_cons] at hnd
    simp only [dedupByAux, if_neg h1]
    congr 1
    apply ih
    · intro x hx
      simp only [List.mem_cons]
      rintro (hk | hk)
      · exact hnd.1 (hk ▸ List.mem_map_of_mem key hx)
      · exact h x (List.mem_cons_of_mem r hx) hk
    · exact hnd.2

theorem dupsByAux_nil_of (l : List α) : ∀ (seen : List κ),
    (∀ r ∈ l, key r ∉ seen) → (l.map key).Nodup → dupsByAux key seen l = [] := by
  induction l with
  | nil => intro seen _ _; simp [dupsByAux]
  | cons r rs ih =>
    intro seen h hnd
    have h1 : key r ∉ seen := h r (List.mem_cons_self r rs)
    rw [List.map_cons, List.nodup_cons] at hnd
    simp only [dupsByAux, if_neg h1]
    apply ih
    · intro x hx
      simp only [List.mem_cons]
      rintro (hk | hk)
      · exact hnd.1 (hk ▸ List.mem_map_of_mem key hx)
      · exact h x (List.mem_cons_of_mem r hx) hk
    · exact hnd.2

theorem dedupBy_idem (l : List α) : dedupBy key (dedupBy key l) = dedupBy key l :=
  dedupByAux_self_of key _ [] (fun r _ => List.not_mem_nil (key r))
    (nodup_map_dedupByAux key l [])

theorem dupsBy_dedupBy (l : List α) : dupsBy key (dedupBy key l) = [] :=
  dupsByAux_nil_of key _ [] (fun r _ => List.not_mem_nil (key r))
    (nodup_map_dedupByAux key l [])

theorem dedupBy_dedupBy_append (a b : List α) :
    dedupBy key (dedupBy key a ++ b) = dedupBy key (a ++ b) := by
  show dedupByAux key [] (dedupBy key a ++ b) = dedupByAux key [] (a ++ b)
  rw [dedupByAux_append, dedupByAux_append]
  rw [dedupByAux_self_of key (dedupBy key a) [] (fun r _ => List.not_mem_nil (key r))
    (nodup_map_dedupByAux key a [])]
  show dedupBy key a ++ _ = dedupBy key a ++ _
  congr 1
  apply dedupByAux_congr
  intro k
  rw [seenAfter_mem, seenAfter_mem]
  simp only [dedupBy]
  rw [mem_map_dedupByAux]
  simp

theorem dupsBy_dedup_append (a b : List α) (h : ∀ r ∈ b, key r ∈ a.map key) :
    dupsBy key (dedupBy key a ++ b) = b := by
  show dupsByAux key [] (dedupBy key a ++ b) = b
  rw [dupsByAux_append]
  rw [dupsByAux_nil_of key (dedupBy key a) [] (fun r _ => List.not_mem_nil (key r))
    (nodup_map_dedupByAux key a [])]
  rw [dupsByAux_of_seen]
  · simp
  · intro r hr
    rw [seenAfter_mem]
    refine Or.inr ?_
    simp only [dedupBy]
    rw [mem_map_dedupByAux]
    exact ⟨List.not_mem_nil _, h r hr⟩

theorem dupsBy_ne_self (l : List α) (h : l ≠ []) : ¬ l = dupsBy key l := by
  cases l with
  | nil => exact absurd rfl h
  | cons r rs =>
    intro hc
    have h1 : dupsBy key (r :: rs) = dupsByAux key [key r] rs := by
      simp [dupsBy, dupsByAux]
    have h2 : (dupsByAux key [key r] rs).length ≤ rs.length :=
      (dupsByAux_sublist key rs [key r]).length_le
    have h3 := congrArg List.length hc
    rw [h1] at h3
    simp only [List.length_cons] at h3
    omega

theorem countP_dedupByAux_of_seen (l : List α) (seen : List κ) (k : κ) (hk : k ∈ seen) :
    (dedupByAux key seen l).countP (fun y => decide (key y = k)) = 0 := by
  rw [List.countP_eq_zero]
  intro a ha
  simp only [decide_eq_true_eq]
  intro hEq
  have h2 := (mem_map_dedupByAux key l seen (key a)).mp (List.mem_map_of_mem key ha)
  exact h2.1 (hEq ▸ hk)

theorem countP_dedupByAux (l : List α) : ∀ (seen : List κ) (k : κ),
    k ∈ l.map key → k ∉ seen →
    (dedupByAux key seen l).countP (fun y => decide (key y = k)) = 1 := by
  induction l with
  | nil => intro seen k hk _; simp at hk
  | cons r rs ih =>
    intro seen k hk hks
    have hk2 : k = key r ∨ k ∈ rs.map key := by simpa using hk
    by_cases h : key r ∈ seen
    · simp only [dedupByAux, if_pos h]
      rcases hk2 with rfl | hm
      · exact absurd h hks
      · exact ih seen k hm hks
    · simp only [dedupByAux, if_neg h, List.countP_cons]
      by_cases hkr : k = key r
      · subst hkr
        rw [countP_dedupByAux_of_seen key rs (key r :: seen) (key r) (List.mem_cons_self _ _)]
        simp
      · rcases hk2 with rfl | hm
        · exact absurd rfl hkr
        · rw [ih (key r :: seen) k hm (fun hc => (List.mem_cons.mp hc).elim hkr hks)]
          simp [Ne.symm hkr]

theorem countP_dedupBy (l : List α) (x : α) (hx : x ∈ l) :
    (dedupBy key l).countP (fun y => decide (key y = key x)) = 1 :=
  countP_dedupByAux key l [] (key x) (List.mem_map_of_mem key hx) (List.not_mem_nil (key x))

theorem dedupByAux_nil_of_seen (l : List α) : ∀ (seen : List κ), (∀ r ∈ l, key r ∈ seen) →
    dedupByAux key seen l = [] := by
  induction l with
  | nil => intro seen _; simp [dedupByAux]
  | cons r rs ih =>
    intro seen h
    have h1 : key r ∈ seen := h r (List.mem_cons_self r rs)
    simp only [dedupByAux, if_pos h1]
    exact ih seen (fun x hx => h x (List.mem_cons_of_mem r hx))

theorem dedupBy_append_self (l : List α) : dedupBy key (l ++ l) = dedupBy key l := by
  show dedupByAux key [] (l ++ l) = dedupBy key l
  rw [dedupByAux_append]
  rw [dedupByAux_nil_of_seen key l (seenAfter key [] l)
    (fun r hr => (seenAfter_mem key l [] (key r)).mpr (Or.inr (List.mem_map_of_mem key hr)))]
  simp [dedupBy]

end DedupLemmas

section LoopHelpers

variable {τ : Type} [DecidableEq τ]

theorem pagesLoop_succ (pageFn : Option τ → Option τ → List (PageRec τ)) (de : Option τ)
    (timeout : Nat) (clock : Nat → Nat) (fuel : Nat) (s : PagesState τ) :
    pagesLoop pageFn de timeout clock (fuel + 1) s
      = if s.cont then
          match pagesBody pageFn de timeout clock s with
          | LoopStep.err e => some (Except.error e)
          | LoopStep.stop s1 => some (Except.ok s1)
          | LoopStep.next s1 => pagesLoop pageFn de timeout clock fuel s1
        else some (Except.ok s) := rfl

theorem leadsLoop_succ (leadFn : τ → Option τ → Option τ → List (LeadRec τ)) (pageId : τ)
    (de : Option τ) (timeout : Nat) (clock : Nat → Nat) (fuel : Nat) (s : LeadsState τ) :
    leadsLoop leadFn pageId de timeout clock (fuel + 1) s
      = if s.cont then
          match leadsBody leadFn pageId de timeout clock s with
          | LoopStep.err e => some (Except.error e)
          | LoopStep.stop s1 => some (Except.ok s1)
          | LoopStep.next s1 => leadsLoop leadFn pageId de timeout clock fuel s1
        else some (Except.ok s) := rfl

theorem pagesLoop_next (pageFn : Option τ → Option τ → List (PageRec τ)) (de : Option τ)
    (timeout : Nat) (clock : Nat → Nat) (fuel : Nat) {s s1 : PagesState τ}
    (hc : s.cont = true) (h : pagesBody pageFn de timeout clock s = LoopStep.next s1) :
    pagesLoop pageFn de timeout clock (fuel + 1) s
      = pagesLoop pageFn de timeout clock fuel s1 := by
  rw [pagesLoop_succ, if_pos hc, h]

theorem pagesLoop_stop (pageFn : Option τ → Option τ → List (PageRec τ)) (de : Option τ)
    (timeout : Nat) (clock : Nat → Nat) (fuel : Nat) {s s1 : PagesState τ}
    (hc : s.cont = true) (h : pagesBody pageFn de timeout clock s = LoopStep.stop s1) :
    pagesLoop pageFn de timeout clock (fuel + 1) s = some (Except.ok s1) := by
  rw [pagesLoop_succ, if_pos hc, h]

theorem pagesLoop_err (pageFn : Option τ → Option τ → List (PageRec τ)) (de : Option τ)
    (timeout : Nat) (clock : Nat → Nat) (fuel : Nat) {s : PagesState τ} {e : PyErr}
    (hc : s.cont = true) (h : pagesBody pageFn de timeout clock s = LoopStep.err e) :
    pagesLoop pageFn de timeout clock (fuel + 1) s = some (Except.error e) := by
  rw [pagesLoop_succ, if_pos hc, h]

theorem pagesLoop_done (pageFn : Option τ → Option τ → List (PageRec τ)) (de : Option τ)
    (timeout : Nat) (clock : Nat → Nat) (fuel : Nat) {s : PagesState τ}
    (hc : s.cont = false) :
    pagesLoop pageFn de timeout clock (fuel + 1) s = some (Except.ok s) := by
  rw [pagesLoop_succ, if_neg (by simp [hc])]

theorem leadsLoop_next (leadFn : τ → Option τ → Option τ → List (LeadRec τ)) (pageId : τ)
    (de : Option τ) (timeout : Nat) (clock : Nat → Nat) (fuel : Nat) {s s1 : LeadsState τ}
    (hc : s.cont = true) (h : leadsBody leadFn pageId de timeout clock s = LoopStep.next s1) :
    leadsLoop leadFn pageId de timeout clock (fuel + 1) s
      = leadsLoop leadFn pageId de timeout clock fuel s1 := by
  rw [leadsLoop_succ, if_pos hc, h]

theorem leadsLoop_stop (leadFn : τ → Option τ → Option τ → List (LeadRec τ)) (pageId : τ)
    (de : Option τ) (timeout : Nat) (clock : Nat → Nat) (fuel : Nat) {s s1 : LeadsState τ}
    (hc : s.cont = true) (h : leadsBody leadFn pageId de timeout clock s = LoopStep.stop s1) :
    leadsLoop leadFn pageId de timeout clock (fuel + 1) s = some (Except.ok s1) := by
  rw [leadsLoop_succ, if_pos hc, h]

theorem leadsLoop_done (leadFn : τ → Option τ → Option τ → List (LeadRec τ)) (pageId : τ)
    (de : Option τ) (timeout : Nat) (clock : Nat → Nat) (fuel : Nat) {s : LeadsState τ}
    (hc : s.cont = false) :
    leadsLoop leadFn pageId de timeout clock (fuel + 1) s = some (Except.ok s) := by
  rw [leadsLoop_succ, if_neg (by simp [hc])]

theorem pagesLoop_const_two (P : List (PageRec τ)) (hne : P ≠ [])
    (de : Option τ) (timeout : Nat) (ds : Option τ) (fuel : Nat) (hf : 3 ≤ fuel) :
    pagesLoop (fun _ _ => P) de timeout (fun _ => 0) fuel (initPagesState ds)
      = some (Except.ok
          { df := dedupBy (fun p => p.id) P
            dateStart := some ((P.getLast hne).createdAt)
            cont := false
            itr := 2
            calls := 2
            sleeps := 0
            raw := P ++ P
            counted := 2 }) := by
  obtain ⟨k, rfl⟩ : ∃ k, fuel = k + 3 := ⟨fuel - 3, by omega⟩
  cases P with
  | nil => exact absurd rfl hne
  | cons r rs =>
    have hclk0 : deadlineCheck 0 timeout = false := by
      unfold deadlineCheck
      rw [Nat.zero_mod]
      exact decide_eq_false (by omega)
    have hnd : ¬ (r :: rs) = dupsBy (fun p : PageRec τ => p.id) (r :: rs) :=
      dupsBy_ne_self _ _ (List.cons_ne_nil r rs)
    have hb1 : pagesBody (fun _ _ => (r :: rs)) de timeout (fun _ => 0) (initPagesState ds)
        = LoopStep.next
          { df := dedupBy (fun p => p.id) (r :: rs)
            dateStart := some (((r :: rs).getLast (List.cons_ne_nil r rs)).createdAt)
            cont := true
            itr := 1
            calls := 1
            sleeps := 0
            raw := r :: rs
            counted := 1 } := by
      simp [pagesBody, initPagesState, hclk0, govStep, hnd]
    have hdup : dupsBy (fun p : PageRec τ => p.id)
        (dedupBy (fun p => p.id) (r :: rs) ++ (r :: rs)) = r :: rs :=
      dupsBy_dedup_append _ _ _ (fun x hx => List.mem_map_of_mem _ hx)
    have hdf : dedupBy (fun p : PageRec τ => p.id)
        (dedupBy (fun p => p.id) (r :: rs) ++ (r :: rs)) = dedupBy (fun p => p.id) (r :: rs) := by
      rw [dedupBy_dedupBy_append, dedupBy_append_self]
    have hb2 : pagesBody (fun _ _ => (r :: rs)) de timeout (fun _ => 0)
        { df := dedupBy (fun p => p.id) (r :: rs)
          dateStart := some (((r :: rs).getLast (List.cons_ne_nil r rs)).createdAt)
          cont := true
          itr := 1
          calls := 1
          sleeps := 0
          raw := r :: rs
          counted := 1 }
        = LoopStep.next
          { df := dedupBy (fun p => p.id) (r :: rs)
            dateStart := some (((r :: rs).getLast (List.cons_ne_nil r rs)).createdAt)
            cont := false
            itr := 2
            calls := 2
            sleeps := 0
            raw := (r :: rs) ++ (r :: rs)
            counted := 2 } := by
      simp [pagesBody, hclk0, govStep, hdup, hdf]
    rw [show k + 3 = k + 2 + 1 from rfl,
      pagesLoop_next (fun _ _ => (r :: rs)) de timeout (fun _ => 0) (k + 2) rfl hb1,
      show k + 2 = k + 1 + 1 from rfl,
      pagesLoop_next (fun _ _ => (r :: rs)) de timeout (fun _ => 0) (k + 1) rfl hb2,
      pagesLoop_done (fun _ _ => (r :: rs)) de timeout (fun _ => 0) k rfl]

theorem bulk_get_pages_const_single (r : PageRec τ) (timeout : Nat) (fuel : Nat) (hf : 3 ≤ fuel)
    (ds de : Option τ) :
    bulk_get_pages (fun _ _ => [r]) timeout (fun _ => 0) fuel ds de none none none
      = some (Except.ok ([renamePage r],
          { df := [r], dateStart := some r.createdAt, cont := false, itr := 2, calls := 2,
            sleeps := 0, raw := [r, r], counted := 2 })) := by
  have hloop := pagesLoop_const_two [r] (List.cons_ne_nil r []) de timeout ds fuel hf
  have h1 : dedupBy (fun p : PageRec τ => p.id) [r] = [r] := by
    simp [dedupBy, dedupByAux]
  rw [h1] at hloop
  simp only [List.getLast_singleton, List.singleton_append] at hloop
  unfold bulk_get_pages
  rw [hloop]
  simp [truthyL, renamePage]

end LoopHelpers

section BodyInversion

variable {τ : Type} [DecidableEq τ]

theorem pagesBody_stop_inv {pageFn : Option τ → Option τ → List (PageRec τ)} {de : Option τ}
    {timeout : Nat} {clock : Nat → Nat} {s s1 : PagesState τ}
    (h : pagesBody pageFn de timeout clock s = LoopStep.stop s1) :
    pageFn s.dateStart de = [] ∧ s1 = { s with calls := s.calls + 1 } := by
  unfold pagesBody at h
  by_cases hd : deadlineCheck (clock s.calls) timeout = true
  · rw [if_pos hd] at h
    simp at h
  · rw [if_neg hd] at h
    cases hp : pageFn s.dateStart de with
    | nil =>
      rw [hp] at h
      simp only [LoopStep.stop.injEq] at h
      exact ⟨rfl, h.symm⟩
    | cons r rs =>
      rw [hp] at h
      simp at h

theorem pagesBody_next_inv {pageFn : Option τ → Option τ → List (PageRec τ)} {de : Option τ}
    {timeout : Nat} {clock : Nat → Nat} {s s1 : PagesState τ}
    (h : pagesBody pageFn de timeout clock s = LoopStep.next s1) :
    ∃ r rs, pageFn s.dateStart de = r :: rs ∧
      s1 = { df := dedupBy (fun p => p.id) (s.df ++ (r :: rs))
             dateStart := some (((r :: rs).getLast (List.cons_ne_nil r rs)).createdAt)
             cont := if (r :: rs) = dupsBy (fun p => p.id) (s.df ++ (r :: rs)) then false else true
             itr := (govStep s.itr s.sleeps).1
             calls := s.calls + 1
             sleeps := (govStep s.itr s.sleeps).2
             raw := s.raw ++ (r :: rs)
             counted := s.counted + 1 } := by
  unfold pagesBody at h
  by_cases hd : deadlineCheck (clock s.calls) timeout = true
  · rw [if_pos hd] at h
    simp at h
  · rw [if_neg hd] at h
    cases hp : pageFn s.dateStart de with
    | nil =>
      rw [hp] at h
      simp at h
    | cons r rs =>
      rw [hp] at h
      simp only [LoopStep.next.injEq] at h
      exact ⟨r, rs, rfl, h.symm⟩

theorem leadsBody_stop_inv {leadFn : τ → Option τ → Option τ → List (LeadRec τ)} {pageId : τ}
    {de : Option τ} {timeout : Nat} {clock : Nat → Nat} {s s1 : LeadsState τ}
    (h : leadsBody leadFn pageId de timeout clock s = LoopStep.stop s1) :
    leadFn pageId s.dateStart de = [] ∧ s1 = { s with calls := s.calls + 1 } := by
  unfold leadsBody at h
  by_cases hd : deadlineCheck (clock s.calls) timeout = true
  · rw [if_pos hd] at h
    simp at h
  · rw [if_neg hd] at h
    cases hp : leadFn pageId s.dateStart de with
    | nil =>
      rw [hp] at h
      simp only [LoopStep.stop.injEq] at h
      exact ⟨rfl, h.symm⟩
    | cons r rs =>
      rw [hp] at h
      simp at h

theorem leadsBody_next_inv {leadFn : τ → Option τ → Option τ → List (LeadRec τ)} {pageId : τ}
    {de : Option τ} {timeout : Nat} {clock : Nat → Nat} {s s1 : LeadsState τ}
    (h : leadsBody leadFn pageId de timeout clock s = LoopStep.next s1) :
    ∃ r rs, leadFn pageId s.dateStart de = r :: rs ∧
      s1 = { df := dedupBy leadKey (s.df ++ (r :: rs))
             dateStart := some (((r :: rs).getLast (List.cons_ne_nil r rs)).created_at)
             cont := if (r :: rs) = dupsBy leadKey (s.df ++ (r :: rs)) then false else true
             itr := (govStep s.itr s.sleeps).1
             calls := s.calls + 1
             sleeps := (govStep s.itr s.sleeps).2
             raw := s.raw ++ (r :: rs)
             counted := s.counted + 1 } := by
  unfold leadsBody at h
  by_cases hd : deadlineCheck (clock s.calls) timeout = true
  · rw [if_pos hd] at h
    simp at h
  · rw [if_neg hd] at h
    cases hp : leadFn pageId s.dateStart de with
    | nil =>
      rw [hp] at h
      simp at h
    | cons r rs =>
      rw [hp] at h
      simp only [LoopStep.next.injEq] at h
      exact ⟨r, rs, rfl, h.symm⟩

end BodyInversion

section LoopInvariants

variable {τ : Type} [DecidableEq τ]

theorem pagesLoop_dedup_inv (pageFn : Option τ → Option τ → List (PageRec τ)) (de : Option τ)
    (timeout : Nat) (clock : Nat → Nat) :
    ∀ (fuel : Nat) (s0 s : PagesState τ),
    pagesLoop pageFn de timeout clock fuel s0 = some (Except.ok s) →
    s0.df = dedupBy (fun p => p.id) s0.raw →
    s.df = dedupBy (fun p => p.id) s.raw := by
  intro fuel
  induction fuel with
  | zero =>
    intro s0 s h _
    simp [pagesLoop] at h
  | succ n ih =>
    intro s0 s h hinv
    rw [pagesLoop_succ] at h
    by_cases hc : s0.cont = true
    · rw [if_pos hc] at h
      rcases hb : pagesBody pageFn de timeout clock s0 with e | s1 | s1 <;> rw [hb] at h
      · simp at h
      · simp only [Option.some.injEq, Except.ok.injEq] at h
        obtain ⟨_, rfl⟩ := pagesBody_stop_inv hb
        rw [← h]
        exact hinv
      · obtain ⟨r, rs, _, rfl⟩ := pagesBody_next_inv hb
        refine ih _ _ h ?_
        show dedupBy (fun p => p.id) (s0.df ++ (r :: rs))
          = dedupBy (fun p => p.id) (s0.raw ++ (r :: rs))
        rw [hinv, dedupBy_dedupBy_append]
    · rw [if_neg hc] at h
      simp only [Option.some.injEq, Except.ok.injEq] at h
      rw [← h]
      exact hinv

theorem leadsLoop_dedup_inv (leadFn : τ → Option τ → Option τ → List (LeadRec τ)) (pageId : τ)
    (de : Option τ) (timeout : Nat) (clock : Nat → Nat) :
    ∀ (fuel : Nat) (s0 s : LeadsState τ),
    leadsLoop leadFn pageId de timeout clock fuel s0 = some (Except.ok s) →
    s0.df = dedupBy leadKey s0.raw →
    s.df = dedupBy leadKey s.raw := by
  intro fuel
  induction fuel with
  | zero =>
    intro s0 s h _
    simp [leadsLoop] at h
  | succ n ih =>
    intro s0 s h hinv
    rw [leadsLoop_succ] at h
    by_cases hc : s0.cont = true
    · rw [if_pos hc] at h
      rcases hb : leadsBody leadFn pageId de timeout clock s0 with e | s1 | s1 <;> rw [hb] at h
      · simp at h
      · simp only [Option.some.injEq, Except.ok.injEq] at h
        obtain ⟨_, rfl⟩ := leadsBody_stop_inv hb
        rw [← h]
        exact hinv
      · obtain ⟨r, rs, _, rfl⟩ := leadsBody_next_inv hb
        refine ih _ _ h ?_
        show dedupBy leadKey (s0.df ++ (r :: rs)) = dedupBy leadKey (s0.raw ++ (r :: rs))
        rw [hinv, dedupBy_dedupBy_append]
    · rw [if_neg hc] at h
      simp only [Option.some.injEq, Except.ok.injEq] at h
      rw [← h]
      exact hinv

theorem leadsOuter_dedup_inv (leadFn : τ → Option τ → Option τ → List (LeadRec τ))
    (ogDs de : Option τ) (timeout : Nat) (clock : Nat → Nat) (fuel : Nat) :
    ∀ (pids : List τ) (s0 s : LeadsState τ),
    leadsOuter leadFn ogDs de timeout clock fuel pids s0 = some (Except.ok s) →
    s0.df = dedupBy leadKey s0.raw →
    s.df = dedupBy leadKey s.raw := by
  intro pids
  induction pids with
  | nil =>
    intro s0 s h hinv
    simp only [leadsOuter, Option.some.injEq, Except.ok.injEq] at h
    rw [← h]
    exact hinv
  | cons p ps ih =>
    intro s0 s h hinv
    unfold leadsOuter at h
    cases hl : leadsLoop leadFn p de timeout clock fuel
        { s0 with cont := true, dateStart := ogDs } with
    | none => rw [hl] at h; simp at h
    | some x =>
      cases x with
      | error e => rw [hl] at h; simp at h
      | ok s1 =>
        rw [hl] at h
        exact ih _ _ h (leadsLoop_dedup_inv leadFn p de timeout clock fuel _ _ hl hinv)

theorem govStep_inv {itr sleeps c : Nat} (h1 : itr = c % 495) (h2 : sleeps = c / 495) :
    (govStep itr sleeps).1 = (c + 1) % 495 ∧ (govStep itr sleeps).2 = (c + 1) / 495 := by
  subst h1
  subst h2
  unfold govStep
  by_cases h : c % 495 + 1 = 495
  · rw [if_pos h]
    constructor
    · show 0 = (c + 1) % 495
      omega
    · show c / 495 + 1 = (c + 1) / 495
      omega
  · rw [if_neg h]
    constructor
    · show c % 495 + 1 = (c + 1) % 495
      omega
    · show c / 495 = (c + 1) / 495
      omega

theorem pagesLoop_gov_inv (pageFn : Option τ → Option τ → List (PageRec τ)) (de : Option τ)
    (timeout : Nat) (clock : Nat → Nat) :
    ∀ (fuel : Nat) (s0 s : PagesState τ),
    pagesLoop pageFn de timeout clock fuel s0 = some (Except.ok s) →
    s0.itr = s0.counted % 495 → s0.sleeps = s0.counted / 495 →
    s.itr = s.counted % 495 ∧ s.sleeps = s.counted / 495 := by
  intro fuel
  induction fuel with
  | zero =>
    intro s0 s h _ _
    simp [pagesLoop] at h
  | succ n ih =>
    intro s0 s h h1 h2
    rw [pagesLoop_succ] at h
    by_cases hc : s0.cont = true
    · rw [if_pos hc] at h
      rcases hb : pagesBody pageFn de timeout clock s0 with e | s1 | s1 <;> rw [hb] at h
      · simp at h
      · simp only [Option.some.injEq, Except.ok.injEq] at h
        obtain ⟨_, rfl⟩ := pagesBody_stop_inv hb
        rw [← h]
        exact ⟨h1, h2⟩
      · obtain ⟨r, rs, _, rfl⟩ := pagesBody_next_inv hb
        exact ih _ _ h (govStep_inv h1 h2).1 (govStep_inv h1 h2).2
    · rw [if_neg hc] at h
      simp only [Option.some.injEq, Except.ok.injEq] at h
      rw [← h]
      exact ⟨h1, h2⟩

theorem leadsLoop_gov_inv (leadFn : τ → Option τ → Option τ → List (LeadRec τ)) (pageId : τ)
    (de : Option τ) (timeout : Nat) (clock : Nat → Nat) :
    ∀ (fuel : Nat) (s0 s : LeadsState τ),
    leadsLoop leadFn pageId de timeout clock fuel s0 = some (Except.ok s) →
    s0.itr = s0.counted % 495 → s0.sleeps = s0.counted / 495 →
    s.itr = s.counted % 495 ∧ s.sleeps = s.counted / 495 := by
  intro fuel
  induction fuel with
  | zero =>
    intro s0 s h _ _
    simp [leadsLoop] at h
  | succ n ih =>
    intro s0 s h h1 h2
    rw [leadsLoop_succ] at h
    by_cases hc : s0.cont = true
    · rw [if_pos hc] at h
      rcases hb : leadsBody leadFn pageId de timeout clock s0 with e | s1 | s1 <;> rw [hb] at h
      · simp at h
      · simp only [Option.some.injEq, Except.ok.injEq] at h
        obtain ⟨_, rfl⟩ := leadsBody_stop_inv hb
        rw [← h]
        exact ⟨h1, h2⟩
      · obtain ⟨r, rs, _, rfl⟩ := leadsBody_next_inv hb
        exact ih _ _ h (govStep_inv h1 h2).1 (govStep_inv h1 h2).2
    · rw [if_neg hc] at h
      simp only [Option.some.injEq, Except.ok.injEq] at h
      rw [← h]
      exact ⟨h1, h2⟩

theorem leadsOuter_gov_inv (leadFn : τ → Option τ → Option τ → List (LeadRec τ))
    (ogDs de : Option τ) (timeout : Nat) (clock : Nat → Nat) (fuel : Nat) :
    ∀ (pids : List τ) (s0 s : LeadsState τ),
    leadsOuter leadFn ogDs de timeout clock fuel pids s0 = some (Except.ok s) →
    s0.itr = s0.counted % 495 → s0.sleeps = s0.counted / 495 →
    s.itr = s.counted % 495 ∧ s.sleeps = s.counted / 495 := by
  intro pids
  induction pids with
  | nil =>
    intro s0 s h h1 h2
    simp only [leadsOuter, Option.some.injEq, Except.ok.injEq] at h
    rw [← h]
    exact ⟨h1, h2⟩
  | cons p ps ih =>
    intro s0 s h h1 h2
    unfold leadsOuter at h
    cases hl : leadsLoop leadFn p de timeout clock fuel
        { s0 with cont := true, dateStart := ogDs } with
    | none => rw [hl] at h; simp at h
    | some x =>
      cases x with
      | error e => rw [hl] at h; simp at h
      | ok s1 =>
        rw [hl] at h
        have hg := leadsLoop_gov_inv leadFn p de timeout clock fuel _ _ hl h1 h2
        exact ih _ _ h hg.1 hg.2

end LoopInvariants

section BulkInversion

variable {τ : Type} [DecidableEq τ]

theorem bulk_get_pages_ok_inv {pageFn : Option τ → Option τ → List (PageRec τ)} {timeout : Nat}
    {clock : Nat → Nat} {fuel : Nat} {ds de : Option τ} {dl pil : Option (List τ)}
    {st : Option τ} {res : List (PageOut τ)} {s : PagesState τ}
    (h : bulk_get_pages pageFn timeout clock fuel ds de dl pil st
      = some (Except.ok (res, s))) :
    pagesLoop pageFn de timeout clock fuel (initPagesState ds) = some (Except.ok s) := by
  unfold bulk_get_pages at h
  cases hl : pagesLoop pageFn de timeout clock fuel (initPagesState ds) with
  | none => rw [hl] at h; simp at h
  | some x =>
    cases x with
    | error e => rw [hl] at h; simp at h
    | ok s2 =>
      rw [hl] at h
      dsimp only at h
      by_cases hcond : ((truthyL dl || truthyL pil || st.isSome)
          && (s2.df.map renamePage).isEmpty) = true
      · rw [if_pos hcond] at h
        simp at h
      · rw [if_neg hcond] at h
        simp only [Option.some.injEq, Except.ok.injEq, Prod.mk.injEq] at h
        rw [h.2]

theorem bulk_get_leads_ok_inv {pageFn : Option τ → Option τ → List (PageRec τ)}
    {leadFn : τ → Option τ → Option τ → List (LeadRec τ)} {timeout : Nat}
    {clockP clockL : Nat → Nat} {fuel : Nat} {ds de : Option τ}
    {lil pil : Option (List τ)} {out : List (LeadOut τ) × PagesState τ × LeadsState τ}
    (h : bulk_get_leads pageFn leadFn timeout clockP clockL fuel ds de lil pil
      = some (Except.ok out)) :
    ∃ pages : List (PageOut τ),
      bulk_get_pages pageFn timeout clockP fuel none de none none none
        = some (Except.ok (pages, out.2.1)) ∧
      leadsOuter leadFn ds de timeout clockL fuel (pages.map (fun p => p.page_id))
        (initLeadsState ds) = some (Except.ok out.2.2) := by
  unfold bulk_get_leads at h
  by_cases hpil : truthyL pil = true
  · rw [if_pos hpil] at h
    simp at h
  · rw [if_neg hpil] at h
    cases hp : bulk_get_pages pageFn timeout clockP fuel none de none none none with
    | none => rw [hp] at h; simp at h
    | some x =>
      cases x with
      | error e => rw [hp] at h; simp at h
      | ok pr =>
        rw [hp] at h
        dsimp only at h
        by_cases hemp : pr.1.isEmpty = true
        · rw [if_pos hemp] at h
          simp at h
        · rw [if_neg hemp] at h
          cases ho : leadsOuter leadFn ds de timeout clockL fuel
              (pr.1.map (fun p => p.page_id)) (initLeadsState ds) with
          | none => rw [ho] at h; simp at h
          | some y =>
            cases y with
            | error e => rw [ho] at h; simp at h
            | ok ls =>
              rw [ho] at h
              dsimp only at h
              by_cases hlil : (truthyL lil && (ls.df.map renameLead).isEmpty) = true
              · rw [if_pos hlil] at h
                simp at h
              · rw [if_neg hlil] at h
                simp only [Option.some.injEq, Except.ok.injEq] at h
                subst h
                exact ⟨pr.1, rfl, by rw [ho]⟩
end BulkInversion

/-- The `created_at` value is a Python string or a Python list (the two
types `process_bulk_pages` accepts for `domain`/`page_id`/`lead_id`). -/
def isStrOrList : PyVal → Prop
  | PyVal.str _ => True
  | PyVal.list _ => True
  | _ => False

/-- The two publish states `process_bulk_pages` accepts (line 537). -/
def validStateVal (v : PyVal) : Prop :=
  v = PyVal.str "published" ∨ v = PyVal.str "unpublished"

/-- A filters dictionary that claim C8 requires `bulk_extract` to
reject: an unrecognised key, a wrong-typed `created_at`/`domain`/
`page_id` value, an invalid `state` value, a malformed date string, or
a date range whose end does not lie strictly after its start. -/
def BadPageFilters (filters : List (String × PyVal)) : Prop :=
  (∃ kv ∈ filters, kv.1 ∉ pageFilterKeys)
  ∨ (∃ v, List.lookup "created_at" filters = some v ∧ ∀ d, v ≠ PyVal.dict d)
  ∨ (∃ v, List.lookup "domain" filters = some v ∧ ¬ isStrOrList v)
  ∨ (∃ v, List.lookup "page_id" filters = some v ∧ ¬ isStrOrList v)
  ∨ (∃ v, List.lookup "state" filters = some v ∧ ¬ validStateVal v)
  ∨ (∃ d s, List.lookup "created_at" filters = some (PyVal.dict d)
      ∧ ((List.lookup "date_start" d = some s ∧ parseYMD s = none)
         ∨ (List.lookup "date_end" d = some s ∧ parseYMD s = none)))
  ∨ (∃ d s e ps pe, List.lookup "created_at" filters = some (PyVal.dict d)
      ∧ List.lookup "date_start" d = some s ∧ List.lookup "date_end" d = some e
      ∧ parseYMD s = some ps ∧ parseYMD e = some pe ∧ ordOf pe ≤ ordOf ps)

theorem strOrList_not (v : PyVal) (h : ¬ isStrOrList v) :
    strOrList (some v) = Except.error PyErr.typeError := by
  cases v with
  | str s => exact absurd trivial h
  | list l => exact absurd trivial h
  | dict d => rfl
  | int n => rfl

theorem stateCheck_not (v : PyVal) (h : ¬ validStateVal v) :
    stateCheck (some v) = Except.error PyErr.valueError := by
  cases v with
  | str s =>
    have hs : ¬ (s = "published" ∨ s = "unpublished") := by
      intro hc
      rcases hc with rfl | rfl
      · exact h (Or.inl rfl)
      · exact h (Or.inr rfl)
    unfold stateCheck
    dsimp only
    rw [if_neg hs]
  | list l => rfl
  | dict d => rfl
  | int n => rfl

theorem process_date_range_not_dict (v : PyVal) (h : ∀ d, v ≠ PyVal.dict d) :
    process_date_range v = Except.error PyErr.typeError := by
  cases v with
  | dict d => exact absurd rfl (h d)
  | str s => rfl
  | list l => rfl
  | int n => rfl

theorem process_date_range_err_dates (d : List (String × String))
    (hbad : (∃ s, List.lookup "date_start" d = some s ∧ parseYMD s = none)
          ∨ (∃ s, List.lookup "date_end" d = some s ∧ parseYMD s = none)
          ∨ (∃ s e ps pe, List.lookup "date_start" d = some s
              ∧ List.lookup "date_end" d = some e
              ∧ parseYMD s = some ps ∧ parseYMD e = some pe ∧ ordOf pe ≤ ordOf ps)) :
    process_date_range (PyVal.dict d) = Except.error PyErr.valueError := by
  unfold process_date_range
  dsimp only
  by_cases hkeys : d.all (fun kv => decide (kv.1 = "date_start" ∨ kv.1 = "date_end")) = true
  · rw [if_pos hkeys]
    rcases hbad with ⟨s, hls, hps⟩ | ⟨s, hls, hps⟩
        | ⟨s, e, ps, pe, hls, hle, hps, hpe, hord⟩
    · simp only [hls, hps]
    · cases hds : List.lookup "date_start" d with
      | none => simp only [hds, hls, hps]
      | some s2 =>
        cases hp2 : parseYMD s2 with
        | none => simp only [hds, hp2]
        | some t2 => simp only [hds, hp2, hls, hps]
    · simp only [hls, hps, hle, hpe]
      by_cases h0 : (ordOf pe : Int) - (ordOf ps : Int) = 0
      · rw [if_pos h0]
      · rw [if_neg h0, if_pos (by omega)]
  · rw [if_neg hkeys]

theorem caStage_eq_of_lookup {filters : List (String × PyVal)} {v : PyVal}
    (h : List.lookup "created_at" filters = some v) :
    caStage filters = process_date_range v := by
  unfold caStage
  rw [h]

theorem process_bulk_pages_err_of_keys {filters : List (String × PyVal)}
    (hall : filters.all (fun kv => decide (kv.1 ∈ pageFilterKeys)) = false) :
    process_bulk_pages filters = Except.error PyErr.valueError := by
  unfold process_bulk_pages
  rw [hall]
  rfl

theorem process_bulk_pages_err_of_ca {filters : List (String × PyVal)} {e : PyErr}
    (hall : filters.all (fun kv => decide (kv.1 ∈ pageFilterKeys)) = true)
    (hca : caStage filters = Except.error e) :
    process_bulk_pages filters = Except.error e := by
  unfold process_bulk_pages
  rw [if_pos hall, hca]

theorem process_bulk_pages_err_of_domain {filters : List (String × PyVal)} {e : PyErr}
    {pr : Option String × Option String}
    (hall : filters.all (fun kv => decide (kv.1 ∈ pageFilterKeys)) = true)
    (hca : caStage filters = Except.ok pr)
    (hd : strOrList (List.lookup "domain" filters) = Except.error e) :
    process_bulk_pages filters = Except.error e := by
  obtain ⟨ds, de⟩ := pr
  unfold process_bulk_pages
  rw [if_pos hall, hca, hd]

theorem process_bulk_pages_err_of_pageid {filters : List (String × PyVal)} {e : PyErr}
    {pr : Option String × Option String} {dl : Option (List String)}
    (hall : filters.all (fun kv => decide (kv.1 ∈ pageFilterKeys)) = true)
    (hca : caStage filters = Except.ok pr)
    (hd : strOrList (List.lookup "domain" filters) = Except.ok dl)
    (hpi : strOrList (List.lookup "page_id" filters) = Except.error e) :
    process_bulk_pages filters = Except.error e := by
  obtain ⟨ds, de⟩ := pr
  unfold process_bulk_pages
  rw [if_pos hall, hca, hd, hpi]

theorem process_bulk_pages_err_of_state {filters : List (String × PyVal)} {e : PyErr}
    {pr : Option String × Option String} {dl pil : Option (List String)}
    (hall : filters.all (fun kv => decide (kv.1 ∈ pageFilterKeys)) = true)
    (hca : caStage filters = Except.ok pr)
    (hd : strOrList (List.lookup "domain" filters) = Except.ok dl)
    (hpi : strOrList (List.lookup "page_id" filters) = Except.ok pil)
    (hst : stateCheck (List.lookup "state" filters) = Except.error e) :
    process_bulk_pages filters = Except.error e := by
  obtain ⟨ds, de⟩ := pr
  unfold process_bulk_pages
  rw [if_pos hall, hca, hd, hpi, hst]

/-- Claim C1 counterexample: a fetch function that always returns the
same single record (a non-empty page of strictly fewer than 1000
records on its first call) makes the `bulk_get_pages` while-loop issue
exactly TWO `get_pages` requests, not one: the loop can only detect
"zero net-new records" by issuing a second, confirming request whose
rows are all duplicates.  The final state records `calls = 2`, and
`2 ≠ 1`. -/
theorem c1_counterexample :
    pagesLoop (τ := Nat) (fun _ _ => [⟨1, 2, 3, 4⟩]) none 3600 (fun _ => 0) 10
        (initPagesState none)
      = some (Except.ok
          { df := [⟨1, 2, 3, 4⟩], dateStart := some 2, cont := false, itr := 2, calls := 2,
            sleeps := 0, raw := [⟨1, 2, 3, 4⟩, ⟨1, 2, 3, 4⟩], counted := 2 })
    ∧ (2 : Nat) ≠ 1 :=
  ⟨rfl, by decide⟩

/-- Claim C1 (amended): for every fetch function that returns the same
fixed non-empty page of strictly fewer than 1000 records on every
call, the `bulk_get_pages` while-loop performs exactly two requests
and terminates: the first call collects the page, the second finds
every row a duplicate (`new_pages_df.equals(pages_dropped)`), sets
`cont = False` and the loop exits. -/
theorem c1_amended_two_requests {τ : Type} [DecidableEq τ] (P : List (PageRec τ))
    (h1 : P ≠ []) (h2 : P.length < 1000) (de ds : Option τ) (timeout fuel : Nat)
    (hf : 3 ≤ fuel) :
    pagesLoop (fun _ _ => P) de timeout (fun _ => 0) fuel (initPagesState ds)
      = some (Except.ok
          { df := dedupBy (fun p => p.id) P
            dateStart := some ((P.getLast h1).createdAt)
            cont := false
            itr := 2
            calls := 2
            sleeps := 0
            raw := P ++ P
            counted := 2 }) :=
  pagesLoop_const_two P h1 de timeout ds fuel hf

/-- Witness for `c1_amended_two_requests` at the concrete page
`[⟨5, 6, 7, 8⟩]` with fuel 3. -/
theorem c1_amended_two_requests_witness :
    pagesLoop (τ := Nat) (fun _ _ => [⟨5, 6, 7, 8⟩]) none 3600 (fun _ => 0) 3
        (initPagesState none)
      = some (Except.ok
          { df := [⟨5, 6, 7, 8⟩], dateStart := some 6, cont := false, itr := 2, calls := 2,
            sleeps := 0, raw := [⟨5, 6, 7, 8⟩, ⟨5, 6, 7, 8⟩], counted := 2 }) :=
  c1_amended_two_requests (τ := Nat) [⟨5, 6, 7, 8⟩] (by simp) (by simp) none none 3600 3
    (by omega)

/-- Claim C6: a fetch function that always returns the same non-empty
single-record page makes `bulk_get_pages` terminate within 2 requests
(the final state has `calls = 2`), and the returned ResultSet is
exactly the one record (with `id` renamed to `page_id`), so it has
exactly 1 record. -/
theorem c6_zero_progress_two_calls {τ : Type} [DecidableEq τ] (r : PageRec τ)
    (timeout fuel : Nat) (hf : 3 ≤ fuel) (ds de : Option τ) :
    bulk_get_pages (fun _ _ => [r]) timeout (fun _ => 0) fuel ds de none none none
      = some (Except.ok ([renamePage r],
          { df := [r], dateStart := some r.createdAt, cont := false, itr := 2, calls := 2,
            sleeps := 0, raw := [r, r], counted := 2 }))
    ∧ [renamePage r].length = 1 :=
  ⟨bulk_get_pages_const_single r timeout fuel hf ds de, rfl⟩

/-- Witness for `c6_zero_progress_two_calls` at a concrete record. -/
theorem c6_zero_progress_two_calls_witness :
    bulk_get_pages (τ := Nat) (fun _ _ => [⟨9, 10, 11, 12⟩]) 3600 (fun _ => 0) 3
        none none none none none
      = some (Except.ok ([⟨9, 10, 11, 12⟩],
          { df := [⟨9, 10, 11, 12⟩], dateStart := some 10, cont := false, itr := 2, calls := 2,
            sleeps := 0, raw := [⟨9, 10, 11, 12⟩, ⟨9, 10, 11, 12⟩], counted := 2 }))
    ∧ [renamePage (⟨9, 10, 11, 12⟩ : PageRec Nat)].length = 1 :=
  c6_zero_progress_two_calls (τ := Nat) ⟨9, 10, 11, 12⟩ 3600 3 (by omega) none none

/-- Claim C2: calling `bulk_get_leads` with a non-empty `page_id_list`
crashes before issuing any request: `page_ids_all` is then a plain
Python list, and the check `page_ids_all.empty` on line 302 raises
`AttributeError` (lists have no attribute `empty`), for every fetch
function, every clock and every other argument — so the extraction
does not proceed to fetch leads at all. -/
theorem c2_pageid_filter_attribute_error {τ : Type} [DecidableEq τ]
    (pageFn : Option τ → Option τ → List (PageRec τ))
    (leadFn : τ → Option τ → Option τ → List (LeadRec τ)) (timeout : Nat)
    (clockP clockL : Nat → Nat) (fuel : Nat) (ds de : Option τ) (lil : Option (List τ))
    (p : τ) (rest : List τ) :
    bulk_get_leads pageFn leadFn timeout clockP clockL fuel ds de lil (some (p :: rest))
      = some (Except.error PyErr.attributeError) := by
  unfold bulk_get_leads
  rw [if_pos (by simp [truthyL])]

/-- Claim C3: when the pages lookup yields zero records,
`bulk_get_leads` raises `KeyError` instead of returning an empty list:
`pd.DataFrame([])` has no columns, so the column selection
`['page_id']` on line 298 fails before the `.empty` check, making the
`return []` on line 303 unreachable. -/
theorem c3_empty_pages_key_error {τ : Type} [DecidableEq τ]
    (leadFn : τ → Option τ → Option τ → List (LeadRec τ)) (timeout : Nat)
    (clockL : Nat → Nat) (fuel : Nat) (ds de : Option τ) (lil : Option (List τ)) :
    bulk_get_leads (fun _ _ => []) leadFn timeout (fun _ => 0) clockL (fuel + 1) ds de lil none
      = some (Except.error PyErr.keyError) := by
  have hclk0 : deadlineCheck 0 timeout = false := by
    unfold deadlineCheck
    rw [Nat.zero_mod]
    exact decide_eq_false (by omega)
  have hb : pagesBody (τ := τ) (fun _ _ => []) de timeout (fun _ => 0) (initPagesState none)
      = LoopStep.stop { initPagesState (τ := τ) none with calls := 1 } := by
    simp [pagesBody, initPagesState, hclk0]
  have hloop : pagesLoop (fun _ _ => ([] : List (PageRec τ))) de timeout (fun _ => 0)
      (fuel + 1) (initPagesState none)
      = some (Except.ok { initPagesState (τ := τ) none with calls := 1 }) :=
    pagesLoop_stop _ _ _ _ _ rfl hb
  have hp : bulk_get_pages (fun _ _ => ([] : List (PageRec τ))) timeout (fun _ => 0)
      (fuel + 1) none de none none none
      = some (Except.ok ([], { initPagesState (τ := τ) none with calls := 1 })) := by
    unfold bulk_get_pages
    rw [hloop]
    rfl
  unfold bulk_get_leads
  rw [hp]
  rfl

/-- Claim C4: the deadline guard on lines 160-161 compares
`timedelta.seconds` — the elapsed time modulo 86400 — against the
timeout, not the total elapsed time.  At an elapsed time of 90000
seconds (25 h) with the default 3600-second timeout, the guard is
false (90000 mod 86400 = 3600, not > 3600) although 90000 > 3600, so
no deadline error is raised and the request is issued: the loop below
runs one request (`calls = 1`) and returns normally. -/
theorem c4_deadline_mod_86400_bug :
    deadlineCheck 90000 3600 = false
    ∧ 90000 > 3600
    ∧ pagesLoop (τ := Nat) (fun _ _ => []) none 3600 (fun _ => 90000) 5 (initPagesState none)
        = some (Except.ok
            { df := [], dateStart := none, cont := true, itr := 0, calls := 1,
              sleeps := 0, raw := [], counted := 0 }) :=
  ⟨rfl, by omega, rfl⟩

/-- 493 distinct page records (ids 1..493) returned in one page by the
C5 scenario's pages endpoint. -/
def c5Pages : List (PageRec Nat) :=
  (List.range 493).map (fun k => { id := k + 1, createdAt := k + 1, domain := 0, state := 0 })

/-- C5 scenario pages endpoint: the full batch on the first call (no
lower bound yet), nothing afterwards — so the pages lookup makes
exactly 2 requests. -/
def c5PageFn : Option Nat → Option Nat → List (PageRec Nat) :=
  fun ds _ =>
    match ds with
    | none => c5Pages
    | some _ => []

/-- The single lead returned by the C5 scenario's leads endpoint. -/
def c5Lead : LeadRec Nat :=
  { id := 1, created_at := 1, page_id := 1, variant_id := 1 }

/-- C5 scenario leads endpoint: every parent returns the same single
lead, so parent 1 takes 2 requests (fresh, then all-duplicate) and
every later parent takes 1 request (immediately all-duplicate) — 494
lead requests over the 493 parents. -/
def c5LeadFn : Nat → Option Nat → Option Nat → List (LeadRec Nat) :=
  fun _ _ _ => [c5Lead]

/-- The C5 scenario run of `bulk_get_leads`: 2 page-lookup requests
followed by 494 lead requests, 496 requests in total. -/
def c5Run : Option (Except PyErr (List (LeadOut Nat) × PagesState Nat × LeadsState Nat)) :=
  bulk_get_leads c5PageFn c5LeadFn 100000 (fun _ => 0) (fun _ => 0) 10 none none none none

/-- The observable governor data of the C5 run: request counts, sleep
counts and final counter values of the pages lookup and of the lead
loops. -/
def c5Observed : Option (Nat × Nat × Nat × Nat × Nat × Nat) :=
  match c5Run with
  | some (Except.ok out) =>
    some (out.2.1.calls, out.2.2.calls, out.2.1.sleeps, out.2.2.sleeps,
          out.2.1.itr, out.2.2.itr)
  | _ => none

theorem deadlineCheck_zero (timeout : Nat) : deadlineCheck 0 timeout = false := by
  unfold deadlineCheck
  rw [Nat.zero_mod]
  exact decide_eq_false (by omega)

/-- A pages fetch that returns one non-empty batch of key-distinct
records and then an empty page: two requests, dedup keeps everything,
the loop exits through the empty-page break with `cont` still true. -/
theorem pagesLoop_batch_then_empty {τ : Type} [DecidableEq τ]
    (pageFn : Option τ → Option τ → List (PageRec τ)) (de ds : Option τ)
    (timeout fuel : Nat) (P : List (PageRec τ)) (hne : P ≠ [])
    (hnd : (P.map (fun p => p.id)).Nodup)
    (hp1 : pageFn ds de = P)
    (hp2 : pageFn (some ((P.getLast hne).createdAt)) de = []) :
    pagesLoop pageFn de timeout (fun _ => 0) (fuel + 2) (initPagesState ds)
      = some (Except.ok
          { df := P, dateStart := some ((P.getLast hne).createdAt), cont := true, itr := 1,
            calls := 2, sleeps := 0, raw := P, counted := 1 }) := by
  cases P with
  | nil => exact absurd rfl hne
  | cons r rs =>
    have hdedup : dedupBy (fun p : PageRec τ => p.id) (r :: rs) = r :: rs :=
      dedupByAux_self_of _ _ [] (fun x _ => List.not_mem_nil _) hnd
    have hdups : dupsBy (fun p : PageRec τ => p.id) (r :: rs) = [] :=
      dupsByAux_nil_of _ _ [] (fun x _ => List.not_mem_nil _) hnd
    have hb1 : pagesBody pageFn de timeout (fun _ => 0) (initPagesState ds)
        = LoopStep.next
          { df := r :: rs
            dateStart := some (((r :: rs).getLast (List.cons_ne_nil r rs)).createdAt)
            cont := true
            itr := 1
            calls := 1
            sleeps := 0
            raw := r :: rs
            counted := 1 } := by
      simp [pagesBody, initPagesState, deadlineCheck_zero, hp1, govStep, hdedup, hdups]
    have hb2 : pagesBody pageFn de timeout (fun _ => 0)
        { df := r :: rs
          dateStart := some (((r :: rs).getLast (List.cons_ne_nil r rs)).createdAt)
          cont := true
          itr := 1
          calls := 1
          sleeps := 0
          raw := r :: rs
          counted := 1 }
        = LoopStep.stop
          { df := r :: rs
            dateStart := some (((r :: rs).getLast (List.cons_ne_nil r rs)).createdAt)
            cont := true
            itr := 1
            calls := 2
            sleeps := 0
            raw := r :: rs
            counted := 1 } := by
      simp [pagesBody, deadlineCheck_zero, hp2]
    rw [show fuel + 2 = fuel + 1 + 1 from rfl,
      pagesLoop_next pageFn de timeout (fun _ => 0) (fuel + 1) rfl hb1,
      pagesLoop_stop pageFn de timeout (fun _ => 0) fuel rfl hb2]

/-- `bulk_get_pages` under the scenario of `pagesLoop_batch_then_empty`,
with no filters: the result is the batch, renamed. -/
theorem bulk_get_pages_batch_then_empty {τ : Type} [DecidableEq τ]
    (pageFn : Option τ → Option τ → List (PageRec τ)) (de ds : Option τ)
    (timeout fuel : Nat) (P : List (PageRec τ)) (hne : P ≠ [])
    (hnd : (P.map (fun p => p.id)).Nodup)
    (hp1 : pageFn ds de = P)
    (hp2 : pageFn (some ((P.getLast hne).createdAt)) de = []) :
    bulk_get_pages pageFn timeout (fun _ => 0) (fuel + 2) ds de none none none
      = some (Except.ok (P.map renamePage,
          { df := P, dateStart := some ((P.getLast hne).createdAt), cont := true, itr := 1,
            calls := 2, sleeps := 0, raw := P, counted := 1 })) := by
  unfold bulk_get_pages
  rw [pagesLoop_batch_then_empty pageFn de ds timeout fuel P hne hnd hp1 hp2]
  simp [truthyL]

/-- One lead request against an empty accumulated DataFrame that
returns the single lead `L`: a net-new record, `cont` stays true. -/
theorem leadsBody_const_fresh {τ : Type} [DecidableEq τ] (L : LeadRec τ)
    (leadFn : τ → Option τ → Option τ → List (LeadRec τ))
    (hfn : ∀ p d1 d2, leadFn p d1 d2 = [L]) (pageId : τ)
    (de : Option τ) (timeout : Nat) (s : LeadsState τ) (hdf : s.df = [])
    (hitr : s.itr + 1 ≠ 495) :
    leadsBody leadFn pageId de timeout (fun _ => 0) s
      = LoopStep.next
        { df := [L], dateStart := some L.created_at, cont := true, itr := s.itr + 1,
          calls := s.calls + 1, sleeps := s.sleeps, raw := s.raw ++ [L],
          counted := s.counted + 1 } := by
  simp [leadsBody, deadlineCheck_zero, hdf, govStep, hitr, dupsBy, dupsByAux,
    dedupBy, dedupByAux, hfn]

/-- One lead request against a DataFrame already containing exactly
the lead `L` that returns `[L]` again: a fully duplicate page, so
`cont` is set to false. -/
theorem leadsBody_const_dup {τ : Type} [DecidableEq τ] (L : LeadRec τ)
    (leadFn : τ → Option τ → Option τ → List (LeadRec τ))
    (hfn : ∀ p d1 d2, leadFn p d1 d2 = [L]) (pageId : τ)
    (de : Option τ) (timeout : Nat) (s : LeadsState τ) (hdf : s.df = [L])
    (hitr : s.itr + 1 ≠ 495) :
    leadsBody leadFn pageId de timeout (fun _ => 0) s
      = LoopStep.next
        { df := [L], dateStart := some L.created_at, cont := false, itr := s.itr + 1,
          calls := s.calls + 1, sleeps := s.sleeps, raw := s.raw ++ [L],
          counted := s.counted + 1 } := by
  simp [leadsBody, deadlineCheck_zero, hdf, govStep, hitr, dupsBy, dupsByAux,
    dedupBy, dedupByAux, hfn]

/-- The inner lead loop for the first parent (empty DataFrame): two
requests (fresh, then all-duplicate), then the loop exits. -/
theorem leadsLoop_const_first {τ : Type} [DecidableEq τ] (L : LeadRec τ)
    (leadFn : τ → Option τ → Option τ → List (LeadRec τ))
    (hfn : ∀ p d1 d2, leadFn p d1 d2 = [L]) (pageId : τ)
    (de : Option τ) (timeout fuel : Nat) (s : LeadsState τ) (hdf : s.df = [])
    (hcont : s.cont = true) (hitr1 : s.itr + 1 ≠ 495) (hitr2 : s.itr + 1 + 1 ≠ 495) :
    leadsLoop leadFn pageId de timeout (fun _ => 0) (fuel + 3) s
      = some (Except.ok
          { df := [L], dateStart := some L.created_at, cont := false, itr := s.itr + 1 + 1,
            calls := s.calls + 1 + 1, sleeps := s.sleeps, raw := (s.raw ++ [L]) ++ [L],
            counted := s.counted + 1 + 1 }) := by
  rw [show fuel + 3 = fuel + 2 + 1 from rfl,
    leadsLoop_next leadFn pageId de timeout (fun _ => 0) (fuel + 2) hcont
      (leadsBody_const_fresh L leadFn hfn pageId de timeout s hdf hitr1),
    show fuel + 2 = fuel + 1 + 1 from rfl,
    leadsLoop_next leadFn pageId de timeout (fun _ => 0) (fuel + 1) rfl
      (leadsBody_const_dup L leadFn hfn pageId de timeout _ rfl hitr2),
    leadsLoop_done leadFn pageId de timeout (fun _ => 0) fuel rfl]

/-- The inner lead loop for a later parent (DataFrame already `[L]`):
one request, immediately all-duplicate, loop exits. -/
theorem leadsLoop_const_later {τ : Type} [DecidableEq τ] (L : LeadRec τ)
    (leadFn : τ → Option τ → Option τ → List (LeadRec τ))
    (hfn : ∀ p d1 d2, leadFn p d1 d2 = [L]) (pageId : τ)
    (de : Option τ) (timeout fuel : Nat) (s : LeadsState τ) (hdf : s.df = [L])
    (hcont : s.cont = true) (hitr : s.itr + 1 ≠ 495) :
    leadsLoop leadFn pageId de timeout (fun _ => 0) (fuel + 2) s
      = some (Except.ok
          { df := [L], dateStart := some L.created_at, cont := false, itr := s.itr + 1,
            calls := s.calls + 1, sleeps := s.sleeps, raw := s.raw ++ [L],
            counted := s.counted + 1 }) := by
  rw [show fuel + 2 = fuel + 1 + 1 from rfl,
    leadsLoop_next leadFn pageId de timeout (fun _ => 0) (fuel + 1) hcont
      (leadsBody_const_dup L leadFn hfn pageId de timeout s hdf hitr),
    leadsLoop_done leadFn pageId de timeout (fun _ => 0) fuel rfl]

/-- The per-parent for-loop over the remaining parents, once the
DataFrame holds `[L]`: each parent contributes exactly one counted
request; the sleep count never moves while fewer than 495 requests
have been counted. -/
theorem leadsOuter_const_tail {τ : Type} [DecidableEq τ] (L : LeadRec τ)
    (leadFn : τ → Option τ → Option τ → List (LeadRec τ))
    (hfn : ∀ p d1 d2, leadFn p d1 d2 = [L])
    (ogDs de : Option τ) (timeout fuel : Nat) :
    ∀ (ids : List τ) (s : LeadsState τ), s.df = [L] → s.itr + ids.length < 495 →
    ∃ s1, leadsOuter leadFn ogDs de timeout (fun _ => 0) (fuel + 2) ids s
        = some (Except.ok s1)
      ∧ s1.df = [L] ∧ s1.itr = s.itr + ids.length ∧ s1.calls = s.calls + ids.length
      ∧ s1.sleeps = s.sleeps ∧ s1.counted = s.counted + ids.length := by
  intro ids
  induction ids with
  | nil =>
    intro s hdf hbound
    exact ⟨s, rfl, hdf, rfl, rfl, rfl, rfl⟩
  | cons p ps ih =>
    intro s hdf hbound
    unfold leadsOuter
    rw [leadsLoop_const_later L leadFn hfn p de timeout fuel
      { s with cont := true, dateStart := ogDs }
      hdf rfl (by
        simp only [List.length_cons] at hbound
        show s.itr + 1 ≠ 495
        omega)]
    obtain ⟨s1, hrun, h1, h2, h3, h4, h5⟩ := ih
      { df := [L], dateStart := some L.created_at, cont := false, itr := s.itr + 1,
        calls := s.calls + 1, sleeps := s.sleeps, raw := s.raw ++ [L],
        counted := s.counted + 1 }
      rfl (by
        simp only [List.length_cons] at hbound
        show s.itr + 1 + ps.length < 495
        omega)
    refine ⟨s1, hrun, h1, ?_, ?_, h4, ?_⟩
    · rw [h2]
      simp only [List.length_cons]
      omega
    · rw [h3]
      simp only [List.length_cons]
      omega
    · rw [h5]
      simp only [List.length_cons]
      omega

/-- Claim C5 counterexample: in the `bulk_get_leads` operation `c5Run`,
496 requests are issued (2 page-lookup requests by the nested
`bulk_get_pages`, then 494 lead requests across the 493 parents), yet
no cooldown pause ever occurs and no counter ever reaches 495: the
pages lookup is governed by its own `itr` inside `bulk_get_pages`
(final value 1 — its empty-page request is not counted), and the lead
loops' shared `itr` counts only the lead requests (final value 494).
Under the claim — a single shared counter counting every request of
the operation, pausing after 495 counted calls — the 496th request
would have been preceded by a cooldown pause and some counter would
have been reset from 495 to 0. -/
theorem c5_counterexample :
    c5Observed = some (2, 494, 0, 0, 1, 494) ∧ 2 + 494 = 496 ∧ 495 < 496 := by
  refine ⟨?_, by norm_num, by norm_num⟩
  have hlen : c5Pages.length = 493 := by
    simp [c5Pages]
  have hne : c5Pages ≠ [] := by
    intro hc
    rw [hc] at hlen
    simp at hlen
  have hnd : (c5Pages.map (fun p => p.id)).Nodup := by
    unfold c5Pages
    rw [List.map_map]
    refine List.Nodup.map ?_ (List.nodup_range 493)
    intro a b hab
    simpa using hab
  have hP : bulk_get_pages c5PageFn 100000 (fun _ => 0) 10 none none none none none
      = some (Except.ok (c5Pages.map renamePage,
          { df := c5Pages, dateStart := some ((c5Pages.getLast hne).createdAt), cont := true,
            itr := 1, calls := 2, sleeps := 0, raw := c5Pages, counted := 1 })) :=
    bulk_get_pages_batch_then_empty c5PageFn none none 100000 8 c5Pages hne hnd rfl rfl
  obtain ⟨a, as, hAs⟩ := List.exists_cons_of_ne_nil hne
  have hasLen : as.length = 492 := by
    rw [hAs] at hlen
    simp at hlen
    omega
  have hfirst : leadsLoop c5LeadFn ((renamePage a).page_id) none 100000 (fun _ => 0) 10
      { initLeadsState (τ := Nat) none with cont := true, dateStart := none }
      = some (Except.ok
          { df := [c5Lead], dateStart := some c5Lead.created_at, cont := false, itr := 2,
            calls := 2, sleeps := 0, raw := [c5Lead, c5Lead], counted := 2 }) :=
    leadsLoop_const_first c5Lead c5LeadFn (fun _ _ _ => rfl) ((renamePage a).page_id) none
      100000 7 { initLeadsState (τ := Nat) none with cont := true, dateStart := none }
      rfl rfl (by decide) (by decide)
  obtain ⟨s1, hrun, hdf1, hitr1, hcalls1, hsleeps1, hcounted1⟩ :=
    leadsOuter_const_tail c5Lead c5LeadFn (fun _ _ _ => rfl) none none 100000 8
      ((as.map renamePage).map (fun p => p.page_id))
      { df := [c5Lead], dateStart := some c5Lead.created_at, cont := false, itr := 2,
        calls := 2, sleeps := 0, raw := [c5Lead, c5Lead], counted := 2 }
      rfl (by
        show (2 : Nat) + ((as.map renamePage).map (fun p => p.page_id)).length < 495
        simp only [List.length_map]
        omega)
  have hrun10 : leadsOuter c5LeadFn none none 100000 (fun _ => 0) 10
      ((as.map renamePage).map (fun p => p.page_id))
      { df := [c5Lead], dateStart := some c5Lead.created_at, cont := false, itr := 2,
        calls := 2, sleeps := 0, raw := [c5Lead, c5Lead], counted := 2 }
      = some (Except.ok s1) := hrun
  have hitr494 : s1.itr = 494 := by
    rw [hitr1]
    show (2 : Nat) + ((as.map renamePage).map (fun p => p.page_id)).length = 494
    simp only [List.length_map]
    omega
  have hcalls494 : s1.calls = 494 := by
    rw [hcalls1]
    show (2 : Nat) + ((as.map renamePage).map (fun p => p.page_id)).length = 494
    simp only [List.length_map]
    omega
  have hsleeps0 : s1.sleeps = 0 := hsleeps1
  have houterFull : leadsOuter c5LeadFn none none 100000 (fun _ => 0) 10
      ((c5Pages.map renamePage).map (fun p => p.page_id)) (initLeadsState none)
      = some (Except.ok s1) := by
    rw [hAs]
    simp only [List.map_cons]
    unfold leadsOuter
    rw [hfirst]
    exact hrun10
  have hRun : c5Run = some (Except.ok (s1.df.map renameLead,
      ({ df := c5Pages, dateStart := some ((c5Pages.getLast hne).createdAt), cont := true,
         itr := 1, calls := 2, sleeps := 0, raw := c5Pages, counted := 1 } : PagesState Nat),
      s1)) := by
    unfold c5Run bulk_get_leads
    rw [if_neg (by decide : ¬ truthyL (none : Option (List Nat)) = true)]
    rw [hP]
    dsimp only
    rw [if_neg (by
      rw [hAs]
      simp : ¬ ((c5Pages.map renamePage).isEmpty = true))]
    rw [houterFull]
    dsimp only
    rw [if_neg (by simp [truthyL] : ¬ ((truthyL (none : Option (List Nat))
      && (s1.df.map renameLead).isEmpty) = true))]
    rfl
  unfold c5Observed
  rw [hRun]
  dsimp only
  rw [hcalls494, hsleeps0, hitr494]

/-- Claim C5 (amended): within one `bulk_get_leads` operation the rate
governor keeps two separate counters, not one shared counter over
every request.  The nested pages lookup is governed by
`bulk_get_pages`' own `itr`, and the lead loops share a second `itr`
initialised to 0 after the lookup; each counter counts only the
requests of its own loop that returned a non-empty page (an
empty-page request breaks out before `itr += 1`).  Each counter
pauses once per 495 counted requests and is then reset to 0: whenever
the operation returns normally, each final `itr` equals its counted
requests modulo 495 and each sleep total equals the counted requests
divided by 495. -/
theorem c5_amended_two_governors {τ : Type} [DecidableEq τ]
    (pageFn : Option τ → Option τ → List (PageRec τ))
    (leadFn : τ → Option τ → Option τ → List (LeadRec τ)) (timeout : Nat)
    (clockP clockL : Nat → Nat) (fuel : Nat) (ds de : Option τ)
    (lil pil : Option (List τ)) (out : List (LeadOut τ) × PagesState τ × LeadsState τ)
    (h : bulk_get_leads pageFn leadFn timeout clockP clockL fuel ds de lil pil
      = some (Except.ok out)) :
    out.2.1.itr = out.2.1.counted % 495 ∧ out.2.1.sleeps = out.2.1.counted / 495
    ∧ out.2.2.itr = out.2.2.counted % 495 ∧ out.2.2.sleeps = out.2.2.counted / 495 := by
  obtain ⟨pages, hp, ho⟩ := bulk_get_leads_ok_inv h
  have hl := bulk_get_pages_ok_inv hp
  have g1 := pagesLoop_gov_inv pageFn de timeout clockP fuel _ _ hl rfl
    (by simp [initPagesState])
  have g2 := leadsOuter_gov_inv leadFn ds de timeout clockL fuel _ _ _ ho rfl
    (by simp [initLeadsState])
  exact ⟨g1.1, g1.2, g2.1, g2.2⟩

/-- The `bulk_get_leads` outcome used to witness
`c5_amended_two_governors`: one parent page, one empty lead request. -/
def c5wOut : List (LeadOut Nat) × PagesState Nat × LeadsState Nat :=
  ([], { df := [⟨0, 0, 0, 0⟩], dateStart := some 0, cont := false, itr := 2, calls := 2,
         sleeps := 0, raw := [⟨0, 0, 0, 0⟩, ⟨0, 0, 0, 0⟩], counted := 2 },
       { df := [], dateStart := none, cont := true, itr := 0, calls := 1, sleeps := 0,
         raw := [], counted := 0 })

/-- Witness for `c5_amended_two_governors` on a concrete run. -/
theorem c5_amended_two_governors_witness :
    c5wOut.2.1.itr = c5wOut.2.1.counted % 495
    ∧ c5wOut.2.1.sleeps = c5wOut.2.1.counted / 495
    ∧ c5wOut.2.2.itr = c5wOut.2.2.counted % 495
    ∧ c5wOut.2.2.sleeps = c5wOut.2.2.counted / 495 :=
  c5_amended_two_governors (fun _ _ => [⟨0, 0, 0, 0⟩]) (fun _ _ _ => []) 3600
    (fun _ => 0) (fun _ => 0) 5 none none none none c5wOut rfl

/-- Claim C7: whenever a request loop of `bulk_get_pages` or (across
all parents) of `bulk_get_leads` returns normally, the accumulated
DataFrame is exactly the first-occurrence deduplication of all raw
records fetched: its keys (`id` for pages; the composite
(created_at, id, page_id, variant_id) for leads) are pairwise
distinct, it is a subsequence of the raw fetch sequence (first-seen
occurrences in first-seen order), and every fetched record — in
particular a boundary record returned by two consecutive calls —
matches exactly one record of the final ResultSet by key. -/
theorem c7_dedup_invariant {τ : Type} [DecidableEq τ] :
    (∀ (pageFn : Option τ → Option τ → List (PageRec τ)) (de : Option τ) (timeout : Nat)
       (clock : Nat → Nat) (fuel : Nat) (ds : Option τ) (s : PagesState τ),
       pagesLoop pageFn de timeout clock fuel (initPagesState ds) = some (Except.ok s) →
       s.df = dedupBy (fun p => p.id) s.raw
         ∧ (s.df.map (fun p => p.id)).Nodup
         ∧ List.Sublist s.df s.raw
         ∧ ∀ x ∈ s.raw, s.df.countP (fun y => decide (y.id = x.id)) = 1)
    ∧ (∀ (leadFn : τ → Option τ → Option τ → List (LeadRec τ)) (ogDs de : Option τ)
       (timeout : Nat) (clock : Nat → Nat) (fuel : Nat) (pids : List τ) (s : LeadsState τ),
       leadsOuter leadFn ogDs de timeout clock fuel pids (initLeadsState ogDs)
         = some (Except.ok s) →
       s.df = dedupBy leadKey s.raw
         ∧ (s.df.map leadKey).Nodup
         ∧ List.Sublist s.df s.raw
         ∧ ∀ x ∈ s.raw, s.df.countP (fun y => decide (leadKey y = leadKey x)) = 1) := by
  constructor
  · intro pageFn de timeout clock fuel ds s h
    have hdf := pagesLoop_dedup_inv pageFn de timeout clock fuel _ s h rfl
    refine ⟨hdf, ?_, ?_, ?_⟩
    · rw [hdf]
      exact nodup_map_dedupByAux _ _ []
    · rw [hdf]
      exact dedupByAux_sublist _ _ []
    · intro x hx
      rw [hdf]
      exact countP_dedupBy _ s.raw x hx
  · intro leadFn ogDs de timeout clock fuel pids s h
    have hdf := leadsOuter_dedup_inv leadFn ogDs de timeout clock fuel pids _ s h rfl
    refine ⟨hdf, ?_, ?_, ?_⟩
    · rw [hdf]
      exact nodup_map_dedupByAux _ _ []
    · rw [hdf]
      exact dedupByAux_sublist _ _ []
    · intro x hx
      rw [hdf]
      exact countP_dedupBy _ s.raw x hx

/-- The final loop state used to witness `c7_dedup_invariant`: the
two-call run over the constant single-record page. -/
def c7wState : PagesState Nat :=
  { df := [⟨1, 2, 3, 4⟩], dateStart := some 2, cont := false, itr := 2, calls := 2,
    sleeps := 0, raw := [⟨1, 2, 3, 4⟩, ⟨1, 2, 3, 4⟩], counted := 2 }

/-- Witness for `c7_dedup_invariant` on a concrete pages run whose raw
sequence contains the boundary record twice. -/
theorem c7_dedup_invariant_witness :
    c7wState.df = dedupBy (fun p => p.id) c7wState.raw
    ∧ (c7wState.df.map (fun p => p.id)).Nodup
    ∧ List.Sublist c7wState.df c7wState.raw
    ∧ ∀ x ∈ c7wState.raw, c7wState.df.countP (fun y => decide (y.id = x.id)) = 1 :=
  (c7_dedup_invariant (τ := Nat)).1 (fun _ _ => [⟨1, 2, 3, 4⟩]) none 3600 (fun _ => 0) 10
    none c7wState rfl

/-- Claim C9: in any loop iteration whose request returned a non-empty
raw page, the `date_start` cursor is advanced to the creation
timestamp of the LAST record of that raw page (`createdAt` of the
last raw page record, `created_at` of the last raw lead record) —
taken from the raw page, not from the deduplicated set. -/
theorem c9_cursor_advance {τ : Type} [DecidableEq τ] :
    (∀ (pageFn : Option τ → Option τ → List (PageRec τ)) (de : Option τ) (timeout : Nat)
       (clock : Nat → Nat) (s : PagesState τ) (r : PageRec τ) (rs : List (PageRec τ)),
       deadlineCheck (clock s.calls) timeout = false →
       pageFn s.dateStart de = r :: rs →
       ∃ s1, pagesBody pageFn de timeout clock s = LoopStep.next s1
         ∧ s1.dateStart = some (((r :: rs).getLast (List.cons_ne_nil r rs)).createdAt))
    ∧ (∀ (leadFn : τ → Option τ → Option τ → List (LeadRec τ)) (pageId : τ)
       (de : Option τ) (timeout : Nat) (clock : Nat → Nat) (s : LeadsState τ)
       (r : LeadRec τ) (rs : List (LeadRec τ)),
       deadlineCheck (clock s.calls) timeout = false →
       leadFn pageId s.dateStart de = r :: rs →
       ∃ s1, leadsBody leadFn pageId de timeout clock s = LoopStep.next s1
         ∧ s1.dateStart = some (((r :: rs).getLast (List.cons_ne_nil r rs)).created_at)) := by
  constructor
  · intro pageFn de timeout clock s r rs hdc hp
    unfold pagesBody
    rw [if_neg (by simp [hdc]), hp]
    exact ⟨_, rfl, rfl⟩
  · intro leadFn pageId de timeout clock s r rs hdc hp
    unfold leadsBody
    rw [if_neg (by simp [hdc]), hp]
    exact ⟨_, rfl, rfl⟩

/-- Witness for `c9_cursor_advance` on a concrete two-record raw page
whose last record is a duplicate of an already-collected record — the
cursor still advances to the raw page's last `createdAt`. -/
theorem c9_cursor_advance_witness :
    ∃ s1, pagesBody (τ := Nat) (fun _ _ => [⟨1, 2, 3, 4⟩, ⟨5, 6, 7, 8⟩]) none 3600
        (fun _ => 0)
        { df := [⟨5, 6, 7, 8⟩], dateStart := none, cont := true, itr := 1, calls := 1,
          sleeps := 0, raw := [⟨5, 6, 7, 8⟩], counted := 1 }
        = LoopStep.next s1
      ∧ s1.dateStart
        = some ((([⟨1, 2, 3, 4⟩, ⟨5, 6, 7, 8⟩] : List (PageRec Nat)).getLast
            (List.cons_ne_nil _ _)).createdAt) :=
  (c9_cursor_advance (τ := Nat)).1 (fun _ _ => [⟨1, 2, 3, 4⟩, ⟨5, 6, 7, 8⟩]) none 3600
    (fun _ => 0)
    { df := [⟨5, 6, 7, 8⟩], dateStart := none, cont := true, itr := 1, calls := 1,
      sleeps := 0, raw := [⟨5, 6, 7, 8⟩], counted := 1 }
    ⟨1, 2, 3, 4⟩ [⟨5, 6, 7, 8⟩] rfl rfl

/-- For a boolean guard, `if b then l.filter p else l` is a sublist of
`l`. -/
theorem ite_filter_sublist {β : Type} (b : Bool) (p : β → Bool) (l : List β) :
    List.Sublist (if b = true then l.filter p else l) l := by
  by_cases hb : b = true
  · rw [if_pos hb]
    exact List.filter_sublist l
  · rw [if_neg hb]

/-- For an optional filter value, the match-guarded filter is a
sublist of `l`. -/
theorem matchOpt_filter_sublist {γ β : Type} (st : Option γ) (f : γ → β → Bool)
    (l : List β) :
    List.Sublist (match st with | some stv => l.filter (f stv) | none => l) l := by
  cases st with
  | none => exact List.Sublist.refl l
  | some stv => exact List.filter_sublist l

/-- Claim C10: whenever the `bulk_get_pages` request loop ends
normally in state `s`, the method either raises `KeyError` (empty
column-less DataFrame under a truthy filter) or returns a list that
is a subsequence of `s.df.map renamePage` — every returned record is
one of the fetched, deduplicated records with `id` renamed to
`page_id` and the other fields unchanged, the domain/page-id/state
filters only remove records, and the accumulated first-seen order is
preserved. -/
theorem c10_post_filters {τ : Type} [DecidableEq τ]
    (pageFn : Option τ → Option τ → List (PageRec τ)) (timeout : Nat) (clock : Nat → Nat)
    (fuel : Nat) (ds de : Option τ) (dl pil : Option (List τ)) (st : Option τ)
    (s : PagesState τ)
    (hl : pagesLoop pageFn de timeout clock fuel (initPagesState ds) = some (Except.ok s)) :
    bulk_get_pages pageFn timeout clock fuel ds de dl pil st
      = some (Except.error PyErr.keyError)
    ∨ ∃ res, bulk_get_pages pageFn timeout clock fuel ds de dl pil st
        = some (Except.ok (res, s))
      ∧ List.Sublist res (s.df.map renamePage)
      ∧ ∀ y ∈ res, ∃ p ∈ s.df, y = renamePage p := by
  unfold bulk_get_pages
  rw [hl]
  dsimp only
  by_cases hc : ((truthyL dl || truthyL pil || st.isSome)
      && (s.df.map renamePage).isEmpty) = true
  · rw [if_pos hc]
    exact Or.inl rfl
  · rw [if_neg hc]
    have hsA : List.Sublist
        (if truthyL dl = true then
          List.filter (fun r => decide (r.domain ∈ dl.getD [])) (s.df.map renamePage)
        else s.df.map renamePage)
        (s.df.map renamePage) := ite_filter_sublist _ _ _
    have hsB := List.Sublist.trans
      (ite_filter_sublist (truthyL pil) (fun r => decide (r.page_id ∈ pil.getD [])) _) hsA
    have hsC := List.Sublist.trans
      (matchOpt_filter_sublist st (fun stv r => decide (r.state = stv)) _) hsB
    refine Or.inr ⟨_, rfl, hsC, ?_⟩
    intro y hy
    obtain ⟨p, hp, hpy⟩ := List.mem_map.mp (hsC.subset hy)
    exact ⟨p, hp, hpy.symm⟩

/-- The final loop state used to witness `c10_post_filters`. -/
def c10wState : PagesState Nat :=
  { df := [⟨1, 2, 3, 4⟩], dateStart := some 2, cont := false, itr := 2, calls := 2,
    sleeps := 0, raw := [⟨1, 2, 3, 4⟩, ⟨1, 2, 3, 4⟩], counted := 2 }

/-- Witness for `c10_post_filters` on a concrete run with no filters. -/
theorem c10_post_filters_witness :
    bulk_get_pages (τ := Nat) (fun _ _ => [⟨1, 2, 3, 4⟩]) 3600 (fun _ => 0) 10
        none none none none none
      = some (Except.error PyErr.keyError)
    ∨ ∃ res, bulk_get_pages (τ := Nat) (fun _ _ => [⟨1, 2, 3, 4⟩]) 3600 (fun _ => 0) 10
        none none none none none
        = some (Except.ok (res, c10wState))
      ∧ List.Sublist res (c10wState.df.map renamePage)
      ∧ ∀ y ∈ res, ∃ p ∈ c10wState.df, y = renamePage p :=
  c10_post_filters (fun _ _ => [⟨1, 2, 3, 4⟩]) 3600 (fun _ => 0) 10 none none
    none none none c10wState rfl

/-- The equal-dates filters dictionary of claim C8:
`{'created_at': {'date_start': '2020-01-01', 'date_end': '2020-01-01'}}`. -/
def c8EqualDatesFilters : List (String × PyVal) :=
  [("created_at", PyVal.dict [("date_start", "2020-01-01"), ("date_end", "2020-01-01")])]

